import Mathlib

/-!
# belt_presense: processing engine

A shallow embedding of `internal/handler/kafka_handler.go` and the records of
`internal/models/models.go`.

Conventions of the embedding:

* A Go `map[string]V` is a function `String → Option V`; `m[k] = v` is `GoMap.set`,
  `delete(m, k)` is `GoMap.delete`.  A `range` loop whose effect on the map does not
  depend on the visiting order (delete the entries that satisfy a test) is the
  pointwise `GoMap.filter`.  The one loop whose result depends on the order
  (`HandleSvcActionMessage`, which stops at the first match) receives the order in
  which the loop visits the keys as an argument.
* `int`, `int64` values that are only copied are `Int`.  The one arithmetic
  operation of the engine, `now-vitals.LastUpdated`, is the wrapping `int64`
  subtraction `sub64`.
* `float64` samples are never inspected; they are carried as their 64-bit patterns.
* `json.Unmarshal` is outside the embedding: a handler receives `none` when decoding
  failed and `some msg` otherwise.  `json.Marshal` cannot fail on a `PresensePayload`
  (no populated float, channel or function field), so the marshalled document is
  represented by the payload itself.
* `p.httpClient.Do` is the library call it is: the requests it sends after the first
  follow the redirect policy of a `net/http` client without `CheckRedirect`.
* `time.Now().Unix()`, the outcome of a persistence call and the answer of the remote
  API are arguments of the handler that consults them.
* `go p.processAndSendBatch(...)` is run at the point where it is spawned (it touches
  only the vitals cache and the last-streamed-time set, which the spawning handler
  does not touch afterwards).
* The locks play no part in the functions above; the section on locks, table accesses
  and outside calls embeds, for each handler, its lock statements, its accesses to the
  four tables and its calls out of the process, log lines included.
* In the functions above log output is not modelled, and with it the report of the
  housekeeping cycle.
  `saveToFile` and the HTTP request are recorded as `Effect`s.  `RouteVitalsMessage`,
  which only inspects the undecoded document, has no counterpart.
-/

namespace BeltPresense

/-! ## Records of `internal/models/models.go` -/

/-- Record `models.ECGMessage`. -/
structure ECGMessage where
  FacilityID : String
  PatientID : String
  AdmissionID : String
  DeviceID : String
  DeviceType : String
  PatientName : String
  Gender : String
  Age : Int
  CurrentTimestamp : Int
  PacketNo : Int
  ECG_CH_A : List Nat
  HR : Int
  RR : Int
  RhythmType : String
  Discharge : Bool
deriving DecidableEq, Repr

/-- Nested record `bp` of `models.BPSPO2Message`. -/
structure BPReading where
  BPSystolic : Int
  BPDiastolic : Int
deriving DecidableEq, Repr

/-- Nested record `spo2` of `models.BPSPO2Message`. -/
structure SPO2Reading where
  Spo2 : Int
  PulseRate : Int
deriving DecidableEq, Repr

/-- Record `models.BPSPO2Message`. -/
structure BPSPO2Message where
  PatientID : String
  FacilityID : String
  AdmissionID : String
  DeviceID : String
  EpochTime : Int
  BP : BPReading
  SPO2 : SPO2Reading
deriving DecidableEq, Repr

/-- Record `models.SensorDataItem`; a nil slice is the empty list. -/
structure SensorDataItem where
  ECG_CH_A : List Nat := []
  ECG_CH_B : List Int := []
  SEQ : Int := 0
  Timestamp : Int := 0
  HR : Int := 0
  RhythmType : String := ""
  RR : Int := 0
  BODYTEMP : Int := 0
  SKINTEMP : Int := 0
  AMBTEMP_AVG : Int := 0
  TSECG : Int := 0
deriving DecidableEq, Repr

/-- Record `models.VitalSign`; the defaults are Go's zero value. -/
structure VitalSign where
  IsValid : Bool := false
  Value : Int := 0
  Timestamp : Int := 0
deriving DecidableEq, Repr

/-- Record `models.BloodPressure`; the defaults are Go's zero value. -/
structure BloodPressure where
  IsValid : Bool := false
  Sys : Int := 0
  Dia : Int := 0
  Timestamp : Int := 0
deriving DecidableEq, Repr

/-- Record `models.ArrythmiaItem`. -/
structure ArrythmiaItem where
  RhythmType : String
deriving DecidableEq, Repr

/-- Record `models.PresensePayload`; the defaults are Go's zero value.  The `EWS` map
is a list of keys, each with the keys of its nested map. -/
structure PresensePayload where
  DeviceType : String := ""
  PatientRef : String := ""
  FacilityID : String := ""
  PatchID : String := ""
  PatientName : String := ""
  Timestamp : Int := 0
  BedID : String := ""
  Gender : String := ""
  Age : Int := 0
  BiosensorStatus : String := ""
  Source : String := ""
  SensorData : List SensorDataItem := []
  SPO2 : VitalSign := {}
  PR : VitalSign := {}
  BP : BloodPressure := {}
  ArrythmiaData : List ArrythmiaItem := []
  EWS : List (String × List String) := []
deriving DecidableEq, Repr

/-- Record `models.PatientStream`; a nil `*int64` is `none`. -/
structure PatientStream where
  PatientID : String
  DeviceID : String
  Status : String
  FacilityID : String
  StartTime : Int
  EndTime : Option Int := none
  LastStreamedTime : Option Int := none
deriving DecidableEq, Repr

/-- Record `models.SvcStartPayload`. -/
structure SvcStartPayload where
  PatchID : String
  FacilityID : String
  ServiceID : String
  ProviderID : String
  PatientID : String
  DeviceType : String
deriving DecidableEq, Repr

/-- Record `models.SvcActionPayload`. -/
structure SvcActionPayload where
  PatchID : String
  Action : String
deriving DecidableEq, Repr

/-! ## State of `internal/handler/kafka_handler.go` -/

/-- Source constant `chunkSize`. -/
def chunkSize : Nat := 30

/-- Record `PatientBatch`. -/
structure PatientBatch where
  Messages : List ECGMessage
deriving DecidableEq, Repr

/-- Record `CachedVitals`; the defaults are Go's zero value (`&CachedVitals{}`). -/
structure CachedVitals where
  BP : BloodPressure := {}
  SPO2 : VitalSign := {}
  PR : VitalSign := {}
  DeviceID : String := ""
  LastUpdated : Int := 0
deriving DecidableEq, Repr

/-- A Go `map[string]V`. -/
abbrev GoMap (V : Type) := String → Option V

/-- The map made by `make(map[string]V)`. -/
def GoMap.empty {V : Type} : GoMap V := fun _ => none

/-- Assignment `m[k] = v`. -/
def GoMap.set {V : Type} (m : GoMap V) (k : String) (v : V) : GoMap V :=
  fun k' => if k' = k then some v else m k'

/-- Statement `delete(m, k)`. -/
def GoMap.delete {V : Type} (m : GoMap V) (k : String) : GoMap V :=
  fun k' => if k' = k then none else m k'

/-- A `range` loop that deletes every entry failing `keep`. -/
def GoMap.filter {V : Type} (m : GoMap V) (keep : V → Bool) : GoMap V :=
  fun k => match m k with
    | some v => if keep v then some v else none
    | none => none

/-- Record `BeltProcessor`: the configuration and the four tables (the database
handle, the HTTP client and the locks have no counterpart here). -/
structure BeltProcessor where
  endpointURL : String
  apiKey : String
  dataSource : String
  writeToFile : Bool
  activePatients : GoMap PatientStream
  patientBatches : GoMap PatientBatch
  vitalsCache : GoMap CachedVitals
  lastStreamedTimes : GoMap Int

/-- What becomes of one request of `sendToApi`. -/
inductive ApiAnswer where
  /-- The request could not be built: `http.NewRequest` returned an error (for a
  request that follows a redirect: the `Location` could not be used). -/
  | requestError
  /-- The request got no response: `httpClient.Do` returns an error. -/
  | transportError
  /-- The request got a response with this status code that ends the exchange. -/
  | status (code : Int)
  /-- The request got a response with this status code and a `Location`; `next` is
  what becomes of the request the client sends there when it follows the redirect. -/
  | redirect (code : Int) (next : ApiAnswer)
deriving DecidableEq, Repr

/-- An action on the outside world. -/
inductive Effect where
  /-- A call `saveToFile(patientID, patchID, timestamp, jsonData)`. -/
  | saveToFile (patientID patchID : String) (timestamp : Int) (jsonData : PresensePayload)
  /-- The request of `sendToApi` on the wire: `jsonData` posted to the endpoint. -/
  | httpPost (endpointURL apiKey : String) (jsonData : PresensePayload)
  /-- A request the HTTP client sends by itself to the `Location` of a response with
  redirect status `code`; `jsonData` is the document when the request carries it
  again. -/
  | httpFollow (code : Int) (jsonData : Option PresensePayload)
deriving DecidableEq, Repr

/-- One call of `processAndSendBatch`: its arguments, and whether it was spawned
with `go` or called directly. -/
structure Flush where
  patientID : String
  batch : PatientBatch
  traceID : String
  spawned : Bool
deriving DecidableEq, Repr

/-- What a handler leaves behind: the processor, the calls of `processAndSendBatch`
it made, and the outside actions those calls performed. -/
structure Handled where
  proc : BeltProcessor
  flushed : List Flush := []
  effects : List Effect := []

/-- Wrap an integer into the range of `int64`. -/
def wrap64 (x : Int) : Int := (x + 2 ^ 63) % 2 ^ 64 - 2 ^ 63

/-- Go's `a - b` on `int64`. -/
def sub64 (a b : Int) : Int := wrap64 (a - b)

/-- Function `NewBeltProcessor` before `loadActivePatients` runs: empty tables. -/
def emptyProcessor (endpointURL apiKey dataSource : String) (writeToFile : Bool) :
    BeltProcessor :=
  { endpointURL := endpointURL, apiKey := apiKey, dataSource := dataSource,
    writeToFile := writeToFile,
    activePatients := GoMap.empty, patientBatches := GoMap.empty,
    vitalsCache := GoMap.empty, lastStreamedTimes := GoMap.empty }

/-- Method `loadActivePatients`, given the rows `GetActivePatients` returned. -/
def loadActivePatients (p : BeltProcessor) (patients : List PatientStream) :
    BeltProcessor :=
  { p with activePatients :=
      patients.foldl (fun m patient => m.set patient.PatientID patient) p.activePatients }

/-- Function `NewBeltProcessor`; `rows` is `none` when `GetActivePatients` failed. -/
def NewBeltProcessor (rows : Option (List PatientStream))
    (endpointURL apiKey dataSource : String) (writeToFile : Bool) :
    Option BeltProcessor :=
  match rows with
  | none => none
  | some patients =>
    some (loadActivePatients (emptyProcessor endpointURL apiKey dataSource writeToFile)
      patients)

/-- Method `HandleBPSPO2Message`. -/
def HandleBPSPO2Message (p : BeltProcessor) (decoded : Option BPSPO2Message)
    (now : Int) : BeltProcessor :=
  match decoded with
  | none => p
  | some msg =>
    if msg.PatientID = "" then p
    else
      let vitals : CachedVitals :=
        match p.vitalsCache msg.PatientID with
        | some v => v
        | none => {}
      let vitals := { vitals with DeviceID := msg.DeviceID }
      let vitals := { vitals with
        SPO2 := { IsValid := true, Value := msg.SPO2.Spo2, Timestamp := msg.EpochTime } }
      let vitals := { vitals with
        PR := { IsValid := true, Value := msg.SPO2.PulseRate, Timestamp := msg.EpochTime } }
      let vitals :=
        if msg.BP.BPSystolic ≠ 0 then
          { vitals with
            BP := { IsValid := true, Sys := msg.BP.BPSystolic, Dia := msg.BP.BPDiastolic,
                    Timestamp := msg.EpochTime } }
        else vitals
      let vitals := { vitals with LastUpdated := now }
      { p with vitalsCache := p.vitalsCache.set msg.PatientID vitals }

/-- The `SensorDataItem` literal built in the loop of `processAndSendBatch`. -/
def sensorItem (payload : ECGMessage) : SensorDataItem :=
  { SEQ := payload.PacketNo, Timestamp := payload.CurrentTimestamp, HR := payload.HR,
    RhythmType := payload.RhythmType, RR := payload.RR }

/-- The assignments of the `if !metadataSet && payload.FacilityID != ""` block in the
loop of `processAndSendBatch`. -/
def setMetadata (dataSource : String) (output : PresensePayload) (payload : ECGMessage) :
    PresensePayload :=
  { output with
    DeviceType := payload.DeviceType
    PatientRef := payload.FacilityID ++ "-" ++ payload.PatientID ++ "-" ++
      payload.AdmissionID
    FacilityID := payload.FacilityID
    PatchID := payload.DeviceID
    PatientName := payload.PatientName
    Timestamp := payload.CurrentTimestamp
    Gender := payload.Gender
    Age := payload.Age
    BiosensorStatus := "Connected"
    Source := dataSource }

/-- One iteration of the loop of `processAndSendBatch` over `(output, metadataSet)`. -/
def composeStep (dataSource : String) (acc : PresensePayload × Bool)
    (payload : ECGMessage) : PresensePayload × Bool :=
  let acc :=
    if !acc.2 && payload.FacilityID != "" then (setMetadata dataSource acc.1 payload, true)
    else acc
  ({ acc.1 with SensorData := acc.1.SensorData ++ [sensorItem payload] }, acc.2)

/-- Method `processAndSendBatch` up to `json.Marshal`: the document it builds, or
`none` when it returns before building one. -/
def composePayload (p : BeltProcessor) (patientID : String) (batch : PatientBatch) :
    Option PresensePayload :=
  if batch.Messages.length = 0 then none
  else
    let acc := batch.Messages.foldl (composeStep p.dataSource) (({} : PresensePayload), false)
    if !acc.2 then none
    else
      let output := acc.1
      let output :=
        match p.vitalsCache patientID with
        | some cachedData =>
          { output with BP := cachedData.BP, SPO2 := cachedData.SPO2, PR := cachedData.PR }
        | none => output
      match batch.Messages.getLast? with
      | none => none
      | some lastMessage =>
        some { output with
          ArrythmiaData := [{ RhythmType := lastMessage.RhythmType }]
          EWS := [("ewsInfo", [])] }

/-- The rest of one call `p.httpClient.Do(req)` once `sent` requests are on the wire
and the latest of them is answered by `api`: the requests the client sends by itself,
and the status of the response the call returns, `none` when it returns an error.
`body` is the document when the latest request carried it.

The client of `NewBeltProcessor` is `&http.Client{Timeout: ...}`, without
`CheckRedirect`, so the policy is the default one of `net/http`: a response with
status 301, 302 or 303 and a `Location` is followed by a request without body, one
with status 307 or 308 by a request with the same method and body, and the call gives
up with an error instead of sending an eleventh request. -/
def clientDo (sent : Nat) (body : Option PresensePayload) (api : ApiAnswer) :
    List Effect × Option Int :=
  match api with
  | .requestError => ([], none)
  | .transportError => ([], none)
  | .status code => ([], some code)
  | .redirect code next =>
    if code = 301 ∨ code = 302 ∨ code = 303 ∨ code = 307 ∨ code = 308 then
      if sent ≥ 10 then ([], none)
      else if next = ApiAnswer.requestError then ([], none)
      else
        let body := if code = 307 ∨ code = 308 then body else none
        let rest := clientDo (sent + 1) body next
        (Effect.httpFollow code body :: rest.1, rest.2)
    else ([], some code)

/-- Method `sendToApi`. -/
def sendToApi (p : BeltProcessor) (patientID : String) (jsonData : PresensePayload)
    (api : ApiAnswer) (now : Int) : BeltProcessor × List Effect :=
  if api = ApiAnswer.requestError then (p, [])
  else
    let done := clientDo 1 (some jsonData) api
    let requests := Effect.httpPost p.endpointURL p.apiKey jsonData :: done.1
    match done.2 with
    | none => (p, requests)
    | some code =>
      if code ≥ 300 then (p, requests)
      else ({ p with lastStreamedTimes := p.lastStreamedTimes.set patientID now }, requests)

/-- Method `processAndSendBatch`. -/
def processAndSendBatch (p : BeltProcessor) (patientID : String) (batch : PatientBatch)
    (api : ApiAnswer) (now : Int) : BeltProcessor × List Effect :=
  match composePayload p patientID batch with
  | none => (p, [])
  | some output =>
    let saved :=
      if p.writeToFile then
        [Effect.saveToFile patientID output.PatchID output.Timestamp output]
      else []
    if p.endpointURL ≠ "" ∧ p.apiKey ≠ "" then
      let sent := sendToApi p patientID output api now
      (sent.1, saved ++ sent.2)
    else (p, saved)

/-- The correlation identifier `fmt.Sprintf("%s-%d", patientID, packetNo)`. -/
def traceID (patientID : String) (packetNo : Int) : String :=
  patientID ++ "-" ++ toString packetNo

/-- Method `HandleECGMessage`. -/
def HandleECGMessage (p : BeltProcessor) (decoded : Option ECGMessage)
    (api : ApiAnswer) (now : Int) : Handled :=
  match decoded with
  | none => { proc := p }
  | some msg =>
    match p.activePatients msg.PatientID with
    | none => { proc := p }
    | some patientStream =>
      if patientStream.Status = "stopped" then { proc := p }
      else if msg.Discharge then
        let batch : PatientBatch := { Messages := [msg] }
        let done := processAndSendBatch p msg.PatientID batch api now
        { proc := done.1
          flushed := [{ patientID := msg.PatientID, batch := batch,
                        traceID := traceID msg.PatientID msg.PacketNo, spawned := false }]
          effects := done.2 }
      else
        let batch : PatientBatch :=
          match p.patientBatches msg.PatientID with
          | some b => b
          | none => { Messages := [] }
        let batch : PatientBatch := { Messages := batch.Messages ++ [msg] }
        if batch.Messages.length ≥ chunkSize then
          let done := processAndSendBatch p msg.PatientID batch api now
          { proc := { done.1 with
              patientBatches := done.1.patientBatches.delete msg.PatientID }
            flushed := [{ patientID := msg.PatientID, batch := batch,
                          traceID := traceID msg.PatientID msg.PacketNo, spawned := true }]
            effects := done.2 }
        else
          { proc := { p with patientBatches := p.patientBatches.set msg.PatientID batch } }

/-- Method `HandleSvcStartMessage`; `dbErr` says whether `StartMonitoring` failed. -/
def HandleSvcStartMessage (p : BeltProcessor) (decoded : Option SvcStartPayload)
    (dbErr : Bool) (now : Int) : BeltProcessor :=
  match decoded with
  | none => p
  | some msg =>
    if msg.DeviceType ≠ "BIOSENSOR_NEXUS" then p
    else if dbErr then p
    else
      let stream : PatientStream :=
        { PatientID := msg.PatientID, DeviceID := msg.PatchID,
          FacilityID := msg.FacilityID, StartTime := now, Status := "running" }
      { p with activePatients := p.activePatients.set msg.PatientID stream }

/-- The scan of `HandleSvcActionMessage`: the first key, in the order `visit` in which
the `range` loop meets the entries, whose session has device id `patchID`; `""` when
the loop ends without a match. -/
def findPatientToStop (activePatients : GoMap PatientStream) (visit : List String)
    (patchID : String) : String :=
  match visit with
  | [] => ""
  | id :: rest =>
    match activePatients id with
    | some stream =>
      if stream.DeviceID = patchID then id
      else findPatientToStop activePatients rest patchID
    | none => findPatientToStop activePatients rest patchID

/-- Method `HandleSvcActionMessage`; `visit` is the order in which the `range` loop
meets the keys of `activePatients`, `dbErr` says whether `StopMonitoring` failed. -/
def HandleSvcActionMessage (p : BeltProcessor) (decoded : Option SvcActionPayload)
    (visit : List String) (dbErr : Bool) (now : Int) : BeltProcessor :=
  match decoded with
  | none => p
  | some msg =>
    if msg.Action = "stop" then
      let patientIDToStop := findPatientToStop p.activePatients visit msg.PatchID
      if patientIDToStop = "" then p
      else if dbErr then p
      else
        let activePatients :=
          match p.activePatients patientIDToStop with
          | some patient =>
            let patient := { patient with Status := "stopped", EndTime := some now }
            p.activePatients.set patientIDToStop patient
          | none => p.activePatients
        { p with
          activePatients := activePatients
          patientBatches := p.patientBatches.delete patientIDToStop }
    else p

/-- One firing of the ticker in `RunHousekeepingCycle`: the processor afterwards and
the map `updatesToProcess` handed to `BatchUpdateLastStreamedTime`. -/
def housekeepingTick (p : BeltProcessor) (now : Int) : BeltProcessor × GoMap Int :=
  let activePatients := p.activePatients.filter (fun patient => patient.Status != "stopped")
  let updatesToProcess := p.lastStreamedTimes
  let vitalsCache :=
    p.vitalsCache.filter (fun vitals => !decide (sub64 now vitals.LastUpdated > 300))
  ({ p with
      activePatients := activePatients
      lastStreamedTimes := GoMap.empty
      vitalsCache := vitalsCache }, updatesToProcess)

/-- Method `RunHousekeepingCycle`: the ticker fires at the times `ticks`, then the
context is cancelled. -/
def RunHousekeepingCycle (p : BeltProcessor) (ticks : List Int) : BeltProcessor :=
  ticks.foldl (fun q now => (housekeepingTick q now).1) p

/-! ## Event sequences -/

/-- One inbound event, with the outside answers its handler consults. -/
inductive Event where
  | svcStart (decoded : Option SvcStartPayload) (dbErr : Bool) (now : Int)
  | svcAction (decoded : Option SvcActionPayload) (visit : List String) (dbErr : Bool)
      (now : Int)
  | ecg (decoded : Option ECGMessage) (api : ApiAnswer) (now : Int)
  | vitals (decoded : Option BPSPO2Message) (now : Int)
  | tick (now : Int)

/-- Handle one event. -/
def step (p : BeltProcessor) (e : Event) : Handled :=
  match e with
  | .svcStart decoded dbErr now => { proc := HandleSvcStartMessage p decoded dbErr now }
  | .svcAction decoded visit dbErr now =>
    { proc := HandleSvcActionMessage p decoded visit dbErr now }
  | .ecg decoded api now => HandleECGMessage p decoded api now
  | .vitals decoded now => { proc := HandleBPSPO2Message p decoded now }
  | .tick now => { proc := (housekeepingTick p now).1 }

/-- Handle a sequence of events, collecting the flushes and effects in order. -/
def run (p : BeltProcessor) (events : List Event) : Handled :=
  match events with
  | [] => { proc := p }
  | e :: rest =>
    let h := step p e
    let r := run h.proc rest
    { proc := r.proc, flushed := h.flushed ++ r.flushed, effects := h.effects ++ r.effects }

/-- An ECG sample as it reaches `HandleECGMessage`: the decoded message with the
outside answers the handler may consult. -/
structure ECGArrival where
  msg : ECGMessage
  api : ApiAnswer
  now : Int

/-- The event of one decoded ECG sample. -/
def ECGArrival.event (a : ECGArrival) : Event := Event.ecg (some a.msg) a.api a.now

/-- The samples pending for a patient: the stored batch, or nothing without one. -/
def pendingOf (p : BeltProcessor) (patientID : String) : List ECGMessage :=
  match p.patientBatches patientID with
  | some b => b.Messages
  | none => []

/-- The decoded ECG samples among a sequence of events, in order. -/
def ecgSamples (events : List Event) : List ECGMessage :=
  events.filterMap (fun e =>
    match e with
    | .ecg (some msg) _ _ => some msg
    | _ => none)

/-- Every stored pending batch holds at least one and fewer than thirty samples. -/
def BatchesBounded (p : BeltProcessor) : Prop :=
  ∀ k b, p.patientBatches k = some b → 1 ≤ b.Messages.length ∧ b.Messages.length < 30

/-- The batches flushed for a patient, in flush order. -/
def flushedFor (patientID : String) (flushed : List Flush) : List (List ECGMessage) :=
  (flushed.filter (fun f => decide (f.patientID = patientID))).map
    (fun f => f.batch.Messages)

/-- The samples of a patient among a sequence of arrivals, in arrival order. -/
def samplesOf (patientID : String) (arrivals : List ECGArrival) : List ECGMessage :=
  (arrivals.map (fun a => a.msg)).filter (fun m => decide (m.PatientID = patientID))

/-! ## Locks, table accesses and outside calls

Each handler once more, reduced to the statements that take or release one of the
four table locks, that read or write one of the four tables, or that leave the
process, in program order along the path its arguments select.  A deferred unlock
stands where the function returns; a loop over a table is one access.  The locks held
during an operation are those taken by the goroutine that performs it.  `log.Printf` and `log.Println` are outside calls:
`setupLogging` in `cmd/main.go` directs the log to the file `./logs/presense.log`. -/

/-- The four table locks of `BeltProcessor`; each names the table it guards. -/
inductive Mutex where
  | activePatientsMu
  | patientBatchesMu
  | vitalsCacheMu
  | lastStreamedTimesMu
deriving DecidableEq, Repr

/-- A call that leaves the process: a method of the repository, the HTTP exchange of
`sendToApi`, a file-system call of `saveToFile`, or a write to the log file. -/
inductive Outside where
  | GetActivePatients
  | StartMonitoring
  | StopMonitoring
  | BatchUpdateLastStreamedTime
  | httpDo
  | MkdirAll
  | WriteFile
  | logWrite
deriving DecidableEq, Repr

/-- A lock statement, an access to the table a lock guards, or an outside call. -/
inductive Op where
  | Lock (m : Mutex)
  | Unlock (m : Mutex)
  | RLock (m : Mutex)
  | RUnlock (m : Mutex)
  | table (m : Mutex)
  | call (o : Outside)
deriving DecidableEq, Repr

/-- What the file system does with one call of `saveToFile`. -/
inductive FileAnswer where
  /-- Call `os.MkdirAll` returned an error. -/
  | mkdirError
  /-- Call `os.WriteFile` returned an error. -/
  | writeError
  /-- The file was written. -/
  | written
deriving DecidableEq, Repr

/-- Every lock statement, table access and outside call of a sequence of operations
with the locks held when it starts; `held` are the locks held at the start of the
sequence. -/
def underLocks (held : List Mutex) (ops : List Op) : List (Op × List Mutex) :=
  match ops with
  | [] => []
  | Op.Lock m :: rest => (Op.Lock m, held) :: underLocks (m :: held) rest
  | Op.RLock m :: rest => (Op.RLock m, held) :: underLocks (m :: held) rest
  | Op.Unlock m :: rest => underLocks (held.erase m) rest
  | Op.RUnlock m :: rest => underLocks (held.erase m) rest
  | Op.table m :: rest => (Op.table m, held) :: underLocks held rest
  | Op.call o :: rest => (Op.call o, held) :: underLocks held rest

/-- The operation runs with no lock held, or it is an access to a table made with
the lock of that table, and no other, held. -/
def scopedAt (x : Op × List Mutex) : Bool :=
  match x with
  | (_, []) => true
  | (Op.table m, [h]) => decide (m = h)
  | _ => false

/-- Whether every operation of a list is scoped is decided by running through it. -/
instance decidableAllScoped (xs : List (Op × List Mutex)) :
    Decidable (∀ x ∈ xs, scopedAt x = true) :=
  List.decidableBAll _ xs

/-- Every outside call of the sequence runs with no lock held. -/
def callsUnlocked (ops : List Op) : Prop :=
  ∀ o held, (Op.call o, held) ∈ underLocks [] ops → held = []

/-- Each lock of the sequence is held only around accesses to its own table. -/
def locksScoped (ops : List Op) : Prop :=
  ∀ x ∈ underLocks [] ops, scopedAt x = true

/-- Operations of `loadActivePatients`; `dbErr` says whether `GetActivePatients`
failed, `rows` is the number of rows it returned. -/
def loadActivePatientsOps (dbErr : Bool) (rows : Nat) : List Op :=
  [Op.call Outside.GetActivePatients] ++
    (if dbErr then []
     else
      [Op.Lock Mutex.activePatientsMu] ++
        List.replicate rows (Op.table Mutex.activePatientsMu) ++
        [Op.Unlock Mutex.activePatientsMu])

/-- Operations of `HandleSvcStartMessage`. -/
def HandleSvcStartMessageOps (decoded : Option SvcStartPayload) (dbErr : Bool) : List Op :=
  match decoded with
  | none => []
  | some msg =>
    if msg.DeviceType ≠ "BIOSENSOR_NEXUS" then []
    else
      [Op.Lock Mutex.activePatientsMu, Op.call Outside.StartMonitoring] ++
        (if dbErr then [Op.call Outside.logWrite]
         else [Op.table Mutex.activePatientsMu, Op.call Outside.logWrite]) ++
        [Op.Unlock Mutex.activePatientsMu]

/-- Operations of `HandleSvcActionMessage`. -/
def HandleSvcActionMessageOps (p : BeltProcessor) (decoded : Option SvcActionPayload)
    (visit : List String) (dbErr : Bool) : List Op :=
  match decoded with
  | none => []
  | some msg =>
    if msg.Action = "stop" then
      let patientIDToStop := findPatientToStop p.activePatients visit msg.PatchID
      [Op.Lock Mutex.activePatientsMu, Op.table Mutex.activePatientsMu] ++
        (if patientIDToStop = "" then []
         else
          [Op.call Outside.StopMonitoring] ++
            (if dbErr then [Op.call Outside.logWrite]
             else
              (match p.activePatients patientIDToStop with
                | some _ => [Op.table Mutex.activePatientsMu, Op.table Mutex.activePatientsMu]
                | none => [Op.table Mutex.activePatientsMu]) ++
                [Op.Lock Mutex.patientBatchesMu, Op.table Mutex.patientBatchesMu,
                 Op.Unlock Mutex.patientBatchesMu, Op.call Outside.logWrite])) ++
        [Op.Unlock Mutex.activePatientsMu]
    else []

/-- Operations of `HandleBPSPO2Message`. -/
def HandleBPSPO2MessageOps (p : BeltProcessor) (decoded : Option BPSPO2Message) : List Op :=
  match decoded with
  | none => [Op.call Outside.logWrite]
  | some msg =>
    if msg.PatientID = "" then []
    else
      [Op.RLock Mutex.activePatientsMu, Op.table Mutex.activePatientsMu,
       Op.RUnlock Mutex.activePatientsMu] ++
        (match p.activePatients msg.PatientID with
          | some _ => []
          | none => [Op.call Outside.logWrite]) ++
        [Op.Lock Mutex.vitalsCacheMu, Op.table Mutex.vitalsCacheMu,
         Op.table Mutex.vitalsCacheMu, Op.call Outside.logWrite,
         Op.Unlock Mutex.vitalsCacheMu]

/-- Operations of `saveToFile` (`json.Indent` cannot fail on a marshalled document). -/
def saveToFileOps (file : FileAnswer) : List Op :=
  match file with
  | .mkdirError => [Op.call Outside.MkdirAll, Op.call Outside.logWrite]
  | .writeError =>
    [Op.call Outside.MkdirAll, Op.call Outside.WriteFile, Op.call Outside.logWrite]
  | .written => [Op.call Outside.MkdirAll, Op.call Outside.WriteFile]

/-- Operations of `sendToApi`: every path ends in one log line; the one call of
`p.httpClient.Do` is the outside call `httpDo`, whatever redirects it follows. -/
def sendToApiOps (api : ApiAnswer) : List Op :=
  if api = ApiAnswer.requestError then [Op.call Outside.logWrite]
  else
    [Op.call Outside.httpDo] ++
      (match (clientDo 1 none api).2 with
        | none => [Op.call Outside.logWrite]
        | some code =>
          if code ≥ 300 then [Op.call Outside.logWrite]
          else
            [Op.call Outside.logWrite, Op.Lock Mutex.lastStreamedTimesMu,
             Op.table Mutex.lastStreamedTimesMu, Op.Unlock Mutex.lastStreamedTimesMu])

/-- Operations of `processAndSendBatch`. -/
def processAndSendBatchOps (p : BeltProcessor) (patientID : String) (batch : PatientBatch)
    (file : FileAnswer) (api : ApiAnswer) : List Op :=
  match composePayload p patientID batch with
  | none => []
  | some _ =>
    [Op.RLock Mutex.vitalsCacheMu, Op.table Mutex.vitalsCacheMu,
     Op.RUnlock Mutex.vitalsCacheMu] ++
      (if p.writeToFile then saveToFileOps file else []) ++
      (if p.endpointURL ≠ "" ∧ p.apiKey ≠ "" then sendToApiOps api else [])

/-- Operations of `HandleECGMessage`: those of the handler itself, and those of the
goroutine it starts, if any. -/
def HandleECGMessageOps (p : BeltProcessor) (decoded : Option ECGMessage)
    (file : FileAnswer) (api : ApiAnswer) : List Op × List (List Op) :=
  match decoded with
  | none => ([Op.call Outside.logWrite], [])
  | some msg =>
    let lookup :=
      [Op.RLock Mutex.activePatientsMu, Op.table Mutex.activePatientsMu,
       Op.RUnlock Mutex.activePatientsMu]
    match p.activePatients msg.PatientID with
    | none => (lookup, [])
    | some patientStream =>
      if patientStream.Status = "stopped" then (lookup, [])
      else if msg.Discharge then
        (lookup ++ processAndSendBatchOps p msg.PatientID { Messages := [msg] } file api, [])
      else
        let found :=
          match p.patientBatches msg.PatientID with
          | some _ => [Op.table Mutex.patientBatchesMu]
          | none => [Op.table Mutex.patientBatchesMu, Op.table Mutex.patientBatchesMu]
        let batch : PatientBatch :=
          match p.patientBatches msg.PatientID with
          | some b => b
          | none => { Messages := [] }
        let batch : PatientBatch := { Messages := batch.Messages ++ [msg] }
        if batch.Messages.length ≥ chunkSize then
          (lookup ++ [Op.Lock Mutex.patientBatchesMu] ++ found ++
              [Op.table Mutex.patientBatchesMu, Op.table Mutex.patientBatchesMu,
               Op.Unlock Mutex.patientBatchesMu],
            [processAndSendBatchOps p msg.PatientID batch file api])
        else
          (lookup ++ [Op.Lock Mutex.patientBatchesMu] ++ found ++
              [Op.table Mutex.patientBatchesMu, Op.Unlock Mutex.patientBatchesMu], [])

/-- Operations of one firing of the ticker in `RunHousekeepingCycle`; `anyStopped` is
`len(patientsToPrune) > 0` and `anyUpdates` is `len(updatesToProcess) > 0`. -/
def housekeepingTickOps (anyStopped anyUpdates : Bool) : List Op :=
  [Op.RLock Mutex.activePatientsMu, Op.table Mutex.activePatientsMu,
   Op.RUnlock Mutex.activePatientsMu] ++
    (if anyStopped then
      [Op.Lock Mutex.activePatientsMu, Op.table Mutex.activePatientsMu,
       Op.Unlock Mutex.activePatientsMu]
     else []) ++
    [Op.Lock Mutex.lastStreamedTimesMu, Op.table Mutex.lastStreamedTimesMu,
     Op.table Mutex.lastStreamedTimesMu, Op.Unlock Mutex.lastStreamedTimesMu] ++
    (if anyUpdates then
      [Op.call Outside.BatchUpdateLastStreamedTime, Op.call Outside.logWrite]
     else []) ++
    [Op.Lock Mutex.vitalsCacheMu, Op.table Mutex.vitalsCacheMu,
     Op.Unlock Mutex.vitalsCacheMu,
     Op.RLock Mutex.activePatientsMu, Op.table Mutex.activePatientsMu,
     Op.RUnlock Mutex.activePatientsMu, Op.call Outside.logWrite]

/-! ## Example data -/

/-- An ECG sample of patient `patientID` with the given facility id and packet number. -/
def sampleECG (patientID facilityID : String) (packetNo : Int) : ECGMessage :=
  { FacilityID := facilityID, PatientID := patientID, AdmissionID := "", DeviceID := "D1",
    DeviceType := "BIOSENSOR_NEXUS", PatientName := "Ada", Gender := "F", Age := 36,
    CurrentTimestamp := 1700000000 + packetNo, PacketNo := packetNo, ECG_CH_A := [1, 2],
    HR := 60 + packetNo, RR := 16, RhythmType := "NSR", Discharge := false }

/-- A processor with empty tables, a configured endpoint and no file sink. -/
def idleProcessor : BeltProcessor :=
  emptyProcessor "https://example.org/data" "key" "DefaultSource" false

/-- A running session of patient `patientID` on device `deviceID`. -/
def runningSession (patientID deviceID : String) : PatientStream :=
  { PatientID := patientID, DeviceID := deviceID, FacilityID := "F1", StartTime := 1700000000,
    Status := "running" }

/-- The processor `idleProcessor` with a running session of patient "P1" on device
"D1". -/
def monitoringP1 : BeltProcessor :=
  { idleProcessor with
    activePatients := idleProcessor.activePatients.set "P1" (runningSession "P1" "D1") }

/-- Thirty samples of patient "P1" with packet numbers 1 to 30, each answered with
status 200. -/
def thirtyArrivals : List ECGArrival :=
  (List.range 30).map (fun i =>
    { msg := sampleECG "P1" "F1" (Int.ofNat i + 1), api := ApiAnswer.status 200,
      now := 1700000100 })

/-- The processor `monitoringP1` with one sample pending for patient "P1". -/
def pendingP1 : BeltProcessor :=
  { monitoringP1 with
    patientBatches := monitoringP1.patientBatches.set "P1"
      { Messages := [sampleECG "P1" "F1" 1] } }

/-- A start event for `patientID` on device `patchID`. -/
def startOf (patientID patchID : String) : SvcStartPayload :=
  { PatchID := patchID, FacilityID := "F1", ServiceID := "S1", ProviderID := "PR1",
    PatientID := patientID, DeviceType := "BIOSENSOR_NEXUS" }

/-- The stop action for device `patchID`. -/
def stopOf (patchID : String) : SvcActionPayload :=
  { PatchID := patchID, Action := "stop" }

/-- Patients "P1" and "P2" are started on the same device "D1", then one sample of
"P2" arrives. -/
def sharedDeviceEvents : List Event :=
  [Event.svcStart (some (startOf "P1" "D1")) false 1700000000,
   Event.svcStart (some (startOf "P2" "D1")) false 1700000001,
   Event.ecg (some (sampleECG "P2" "F1" 1)) (ApiAnswer.status 200) 1700000002]

/-- The processor after `sharedDeviceEvents`. -/
def sharedDevice : BeltProcessor := (run idleProcessor sharedDeviceEvents).proc

/-- A patient with the empty id is started on device "D1", then one sample of that
patient arrives. -/
def namelessEvents : List Event :=
  [Event.svcStart (some (startOf "" "D1")) false 1700000000,
   Event.ecg (some (sampleECG "" "F1" 1)) (ApiAnswer.status 200) 1700000002]

/-- The processor after `namelessEvents`. -/
def nameless : BeltProcessor := (run idleProcessor namelessEvents).proc

/-- Samples 2 to 30 of `patientID`, each answered with status 200. -/
def laterArrivals (patientID : String) : List ECGArrival :=
  (List.range 29).map (fun i =>
    { msg := sampleECG patientID "F1" (Int.ofNat i + 2), api := ApiAnswer.status 200,
      now := 1700000100 })

/-- The processor `pendingP1` after a stop action for device "D1". -/
def stoppedP1 : BeltProcessor :=
  HandleSvcActionMessage pendingP1 (some (stopOf "D1")) ["P1"] false 1700000003

/-- A vitals reading of patient "P1" without a blood pressure. -/
def readingP1 : BPSPO2Message :=
  { PatientID := "P1", FacilityID := "F1", AdmissionID := "", DeviceID := "V1",
    EpochTime := 1700000050, BP := { BPSystolic := 0, BPDiastolic := 0 },
    SPO2 := { Spo2 := 97, PulseRate := 72 } }

/-- A batch of patient "P1" whose first sample has no facility id. -/
def twoSamples : PatientBatch :=
  { Messages := [sampleECG "P1" "" 1, sampleECG "P1" "F1" 2] }

/-- The payload composed from `twoSamples` without cached vitals. -/
def twoSamplesPayload : PresensePayload :=
  { DeviceType := "BIOSENSOR_NEXUS", PatientRef := "F1-P1-", FacilityID := "F1",
    PatchID := "D1", PatientName := "Ada", Timestamp := 1700000002, Gender := "F", Age := 36,
    BiosensorStatus := "Connected", Source := "DefaultSource",
    SensorData :=
      [{ SEQ := 1, Timestamp := 1700000001, HR := 61, RhythmType := "NSR", RR := 16 },
       { SEQ := 2, Timestamp := 1700000002, HR := 62, RhythmType := "NSR", RR := 16 }],
    ArrythmiaData := [{ RhythmType := "NSR" }], EWS := [("ewsInfo", [])] }

/-- Every stored session is running or stopped. -/
def StatusDomain (p : BeltProcessor) : Prop :=
  ∀ k s, p.activePatients k = some s → s.Status = "running" ∨ s.Status = "stopped"

/-- Patient "P1" is started on device "D1" and stopped; before the next housekeeping
tick patient "P2" is started on the same device. -/
def reusedDeviceEvents : List Event :=
  [Event.svcStart (some (startOf "P1" "D1")) false 1700000000,
   Event.svcAction (some (stopOf "D1")) ["P1"] false 1700000010,
   Event.svcStart (some (startOf "P2" "D1")) false 1700000020]

/-- The processor after `reusedDeviceEvents`. -/
def reusedDevice : BeltProcessor := (run idleProcessor reusedDeviceEvents).proc

/-- The processor `monitoringP1` with a second running session, of patient "P2" on
device "D2". -/
def monitoringBoth : BeltProcessor :=
  { monitoringP1 with
    activePatients := monitoringP1.activePatients.set "P2" (runningSession "P2" "D2") }

/-- Samples 2 to 30 of "P2" arrive between the first and the remaining samples of
"P1". -/
def interleavedArrivals : List ECGArrival :=
  thirtyArrivals.take 1 ++ laterArrivals "P2" ++ thirtyArrivals.drop 1

/-! ## Lemmas on maps and on the composition loop -/

@[simp] theorem GoMap.empty_apply {V : Type} (k : String) : (GoMap.empty : GoMap V) k = none := rfl

@[simp] theorem GoMap.set_same {V : Type} (m : GoMap V) (k : String) (v : V) :
    m.set k v k = some v := by
  simp [GoMap.set]

theorem GoMap.set_other {V : Type} (m : GoMap V) (k k' : String) (v : V) (h : k' ≠ k) :
    m.set k v k' = m k' := by
  simp [GoMap.set, h]

@[simp] theorem GoMap.delete_same {V : Type} (m : GoMap V) (k : String) :
    m.delete k k = none := by
  simp [GoMap.delete]

theorem GoMap.delete_other {V : Type} (m : GoMap V) (k k' : String) (h : k' ≠ k) :
    m.delete k k' = m k' := by
  simp [GoMap.delete, h]

/-- The payload after the loop when the metadata were already set. -/
theorem composeFold_set (ds : String) (msgs : List ECGMessage) (out : PresensePayload) :
    msgs.foldl (composeStep ds) (out, true) =
      ({ out with SensorData := out.SensorData ++ msgs.map sensorItem }, true) := by
  induction msgs generalizing out with
  | nil => simp
  | cons m rest ih =>
    simp only [List.foldl_cons, composeStep, Bool.not_true, Bool.false_and]
    simp [ih]

/-- The payload after the loop when the metadata were not yet set. -/
theorem composeFold_unset (ds : String) (msgs : List ECGMessage) (out : PresensePayload) :
    msgs.foldl (composeStep ds) (out, false) =
      match msgs.find? (fun m => m.FacilityID != "") with
      | some m =>
        ({ setMetadata ds out m with SensorData := out.SensorData ++ msgs.map sensorItem }, true)
      | none => ({ out with SensorData := out.SensorData ++ msgs.map sensorItem }, false) := by
  induction msgs generalizing out with
  | nil => simp
  | cons m rest ih =>
    by_cases hf : m.FacilityID = ""
    · have hstep : composeStep ds (out, false) m =
          ({ out with SensorData := out.SensorData ++ [sensorItem m] }, false) := by
        simp [composeStep, hf]
      rw [List.foldl_cons, hstep, ih, List.find?_cons]
      simp only [hf, bne_self_eq_false]
      cases List.find? (fun m => m.FacilityID != "") rest <;> simp [setMetadata]
    · have hstep : composeStep ds (out, false) m =
          ({ setMetadata ds out m with
              SensorData := out.SensorData ++ [sensorItem m] }, true) := by
        simp [composeStep, hf, setMetadata]
      have hb : (m.FacilityID != "") = true := by simp [hf]
      rw [List.foldl_cons, hstep, composeFold_set, List.find?_cons, hb]
      simp [setMetadata]


/-- Closed form of `composePayload`: nothing without a sample that has a facility id,
otherwise the header of the first such sample, one sensor entry per sample, the cached
vitals and the rhythm of the last sample. -/
theorem composePayload_eq (p : BeltProcessor) (patientID : String) (batch : PatientBatch) :
    composePayload p patientID batch =
      match batch.Messages.find? (fun m => m.FacilityID != ""), batch.Messages.getLast? with
      | some m, some lastMessage =>
        let output : PresensePayload :=
          { setMetadata p.dataSource {} m with SensorData := batch.Messages.map sensorItem }
        let output : PresensePayload :=
          match p.vitalsCache patientID with
          | some cachedData =>
            { output with BP := cachedData.BP, SPO2 := cachedData.SPO2, PR := cachedData.PR }
          | none => output
        some { output with
          ArrythmiaData := [{ RhythmType := lastMessage.RhythmType }]
          EWS := [("ewsInfo", [])] }
      | _, _ => none := by
  unfold composePayload
  by_cases hlen : batch.Messages.length = 0
  · have hnil : batch.Messages = [] := List.length_eq_zero.mp hlen
    simp [hnil]
  · rw [if_neg hlen, composeFold_unset]
    cases hfind : batch.Messages.find? (fun m => m.FacilityID != "") with
    | none => simp
    | some m =>
      cases hlast : batch.Messages.getLast? with
      | none => simp
      | some lastMessage => cases hv : p.vitalsCache patientID <;> simp

theorem composePayload_isSome (p : BeltProcessor) (patientID : String) (batch : PatientBatch) :
    (composePayload p patientID batch).isSome =
      batch.Messages.any (fun m => m.FacilityID != "") := by
  rw [composePayload_eq]
  cases hfind : batch.Messages.find? (fun m => m.FacilityID != "") with
  | none =>
    have := List.find?_eq_none.mp hfind
    simp only [Option.isSome_none]
    symm
    rw [Bool.eq_false_iff]
    intro hany
    obtain ⟨m, hm, hf⟩ := List.any_eq_true.mp hany
    exact this m hm hf
  | some m =>
    have hmem := List.mem_of_find?_eq_some hfind
    have hf := List.find?_some hfind
    cases hlast : batch.Messages.getLast? with
    | none =>
      rw [List.getLast?_eq_none_iff] at hlast
      rw [hlast] at hmem
      cases hmem
    | some lastMessage =>
      simp only [Option.isSome_some]
      symm
      exact List.any_eq_true.mpr ⟨m, hmem, hf⟩


/-! ## The ECG handler -/

/-- Method `sendToApi` leaves everything but the last-streamed-time set alone. -/
theorem sendToApi_frame (p : BeltProcessor) (patientID : String) (jsonData : PresensePayload)
    (api : ApiAnswer) (now : Int) :
    (sendToApi p patientID jsonData api now).1.activePatients = p.activePatients ∧
    (sendToApi p patientID jsonData api now).1.patientBatches = p.patientBatches ∧
    (sendToApi p patientID jsonData api now).1.vitalsCache = p.vitalsCache := by
  unfold sendToApi
  split_ifs
  · exact ⟨rfl, rfl, rfl⟩
  · simp only
    split
    · exact ⟨rfl, rfl, rfl⟩
    · split_ifs <;> exact ⟨rfl, rfl, rfl⟩

/-- Method `processAndSendBatch` leaves everything but the last-streamed-time set
alone. -/
theorem processAndSendBatch_frame (p : BeltProcessor) (patientID : String)
    (batch : PatientBatch) (api : ApiAnswer) (now : Int) :
    (processAndSendBatch p patientID batch api now).1.activePatients = p.activePatients ∧
    (processAndSendBatch p patientID batch api now).1.patientBatches = p.patientBatches ∧
    (processAndSendBatch p patientID batch api now).1.vitalsCache = p.vitalsCache := by
  unfold processAndSendBatch
  cases composePayload p patientID batch with
  | none => simp
  | some output =>
    by_cases h : p.endpointURL ≠ "" ∧ p.apiKey ≠ ""
    · simp only [if_pos h]
      exact sendToApi_frame p patientID output api now
    · simp only [if_neg h, and_self]

theorem pendingOf_set_same (p : BeltProcessor) (pid : String) (b : PatientBatch) :
    pendingOf { p with patientBatches := p.patientBatches.set pid b } pid = b.Messages := by
  simp [pendingOf]

/-- A non-discharge sample of an accepted patient that does not fill the batch is
appended to it; nothing is flushed. -/
theorem HandleECGMessage_append (p : BeltProcessor) (msg : ECGMessage) (api : ApiAnswer)
    (now : Int) (stream : PatientStream)
    (hs : p.activePatients msg.PatientID = some stream) (hst : stream.Status ≠ "stopped")
    (hd : msg.Discharge = false)
    (hlen : (pendingOf p msg.PatientID).length + 1 < chunkSize) :
    HandleECGMessage p (some msg) api now =
      { proc := { p with patientBatches :=
          (p.patientBatches.set msg.PatientID
            { Messages := pendingOf p msg.PatientID ++ [msg] }) } } := by
  unfold pendingOf at hlen
  unfold HandleECGMessage pendingOf
  simp only [hs, if_neg hst, hd]
  cases hb : p.patientBatches msg.PatientID with
  | none =>
    simp only [hb] at hlen
    simp [chunkSize] at hlen ⊢
  | some b =>
    simp only [hb] at hlen
    have : ¬ (b.Messages ++ [msg]).length ≥ chunkSize := by
      simp only [List.length_append, List.length_singleton]; omega
    simp [hlen]

/-- A non-discharge sample of an accepted patient that fills the batch flushes it,
in order, and removes it from the table. -/
theorem HandleECGMessage_flush (p : BeltProcessor) (msg : ECGMessage) (api : ApiAnswer)
    (now : Int) (stream : PatientStream)
    (hs : p.activePatients msg.PatientID = some stream) (hst : stream.Status ≠ "stopped")
    (hd : msg.Discharge = false)
    (hlen : chunkSize ≤ (pendingOf p msg.PatientID).length + 1) :
    (HandleECGMessage p (some msg) api now).flushed =
      [{ patientID := msg.PatientID
         batch := { Messages := pendingOf p msg.PatientID ++ [msg] }
         traceID := traceID msg.PatientID msg.PacketNo, spawned := true }] ∧
    (HandleECGMessage p (some msg) api now).proc.patientBatches =
      p.patientBatches.delete msg.PatientID ∧
    (HandleECGMessage p (some msg) api now).proc.activePatients = p.activePatients ∧
    (HandleECGMessage p (some msg) api now).proc.vitalsCache = p.vitalsCache := by
  have hfr := processAndSendBatch_frame p msg.PatientID
    { Messages := pendingOf p msg.PatientID ++ [msg] } api now
  cases hb : p.patientBatches msg.PatientID with
  | none =>
    have hp : pendingOf p msg.PatientID = [] := by simp [pendingOf, hb]
    rw [hp] at hlen
    simp [chunkSize] at hlen
  | some b =>
    have hp : pendingOf p msg.PatientID = b.Messages := by simp [pendingOf, hb]
    rw [hp] at hlen hfr ⊢
    have hge : chunkSize ≤ b.Messages.length + 1 := hlen
    simp [HandleECGMessage, hs, hst, hd, hb, hge, hfr]


/-! ## Event sequences -/

theorem run_nil (p : BeltProcessor) : run p [] = { proc := p } := rfl

theorem run_cons_proc (p : BeltProcessor) (e : Event) (rest : List Event) :
    (run p (e :: rest)).proc = (run (step p e).proc rest).proc := rfl

theorem run_cons_flushed (p : BeltProcessor) (e : Event) (rest : List Event) :
    (run p (e :: rest)).flushed = (step p e).flushed ++ (run (step p e).proc rest).flushed :=
  rfl

theorem run_append_proc (xs ys : List Event) (p : BeltProcessor) :
    (run p (xs ++ ys)).proc = (run (run p xs).proc ys).proc := by
  induction xs generalizing p with
  | nil => rfl
  | cons e rest ih => simp only [List.cons_append, run_cons_proc, ih]

theorem run_append_flushed (xs ys : List Event) (p : BeltProcessor) :
    (run p (xs ++ ys)).flushed = (run p xs).flushed ++ (run (run p xs).proc ys).flushed := by
  induction xs generalizing p with
  | nil => simp [run_nil]
  | cons e rest ih =>
    simp only [List.cons_append, run_cons_flushed, run_cons_proc, ih, List.append_assoc]

/-- Samples of one accepted patient that do not fill the batch accumulate in arrival
order; nothing is flushed and the other tables stay as they are. -/
theorem run_ecg_below_chunk (pid : String) (stream : PatientStream)
    (hst : stream.Status ≠ "stopped") (arrivals : List ECGArrival) :
    ∀ p : BeltProcessor, p.activePatients pid = some stream →
      (∀ a ∈ arrivals, a.msg.PatientID = pid ∧ a.msg.Discharge = false) →
      (pendingOf p pid).length + arrivals.length < chunkSize →
      (run p (arrivals.map ECGArrival.event)).flushed = [] ∧
      (run p (arrivals.map ECGArrival.event)).proc.activePatients = p.activePatients ∧
      pendingOf (run p (arrivals.map ECGArrival.event)).proc pid =
        pendingOf p pid ++ arrivals.map (fun a => a.msg) := by
  induction arrivals with
  | nil => intro p _ _ _; simp [run_nil]
  | cons a rest ih =>
    intro p hs hall hlen
    obtain ⟨hpid, hd⟩ := hall a (List.mem_cons_self _ _)
    have hs' : p.activePatients a.msg.PatientID = some stream := by rw [hpid]; exact hs
    have hlen1 : (pendingOf p a.msg.PatientID).length + 1 < chunkSize := by
      rw [hpid]; simp only [List.length_cons] at hlen; omega
    have hstep := HandleECGMessage_append p a.msg a.api a.now stream hs' hst hd hlen1
    have hstep' : step p a.event =
        { proc := { p with patientBatches :=
            (p.patientBatches.set pid { Messages := pendingOf p pid ++ [a.msg] }) } } := by
      rw [← hpid]; exact hstep
    have hrest := ih
      { p with patientBatches :=
          (p.patientBatches.set pid { Messages := pendingOf p pid ++ [a.msg] }) }
      hs (fun x hx => hall x (List.mem_cons_of_mem _ hx))
      (by rw [pendingOf_set_same]
          simp only [List.length_append, List.length_singleton, List.length_cons,
            List.length_nil] at hlen ⊢
          omega)
    simp only [List.map_cons, run_cons_flushed, run_cons_proc, hstep']
    refine ⟨by simp [hrest.1], hrest.2.1, ?_⟩
    rw [hrest.2.2, pendingOf_set_same]
    simp


/-! ## Batching -/

theorem pendingOf_of_none (p : BeltProcessor) (pid : String)
    (h : p.patientBatches pid = none) : pendingOf p pid = [] := by
  simp [pendingOf, h]

/-- C1: for a patient with a running session and no pending batch, thirty
non-discharge samples in a row trigger exactly one flush, whose batch is those thirty
samples in arrival order; no proper prefix triggers a flush and the patient has no
pending batch afterwards. -/
theorem C1_thirty_samples_one_flush (p : BeltProcessor) (pid : String)
    (stream : PatientStream) (arrivals : List ECGArrival)
    (hs : p.activePatients pid = some stream) (hrun : stream.Status = "running")
    (hnone : p.patientBatches pid = none) (hlen : arrivals.length = 30)
    (hall : ∀ a ∈ arrivals, a.msg.PatientID = pid ∧ a.msg.Discharge = false) :
    (∃ f, (run p (arrivals.map ECGArrival.event)).flushed = [f] ∧ f.patientID = pid ∧
        f.batch.Messages = arrivals.map (fun a => a.msg)) ∧
    (run p (arrivals.map ECGArrival.event)).proc.patientBatches pid = none ∧
    (∀ k, k < 30 → (run p ((arrivals.take k).map ECGArrival.event)).flushed = []) := by
  have hst : stream.Status ≠ "stopped" := by rw [hrun]; decide
  have hpend : pendingOf p pid = [] := pendingOf_of_none p pid hnone
  have hshort : ∀ k, k < 30 →
      (run p ((arrivals.take k).map ECGArrival.event)).flushed = [] ∧
      (run p ((arrivals.take k).map ECGArrival.event)).proc.activePatients =
        p.activePatients ∧
      pendingOf (run p ((arrivals.take k).map ECGArrival.event)).proc pid =
        (arrivals.take k).map (fun a => a.msg) := by
    intro k hk
    have h := run_ecg_below_chunk pid stream hst (arrivals.take k) p hs
      (fun a ha => hall a (List.mem_of_mem_take ha))
      (by rw [hpend, List.length_take, hlen]; simp [chunkSize]; omega)
    rw [hpend, List.nil_append] at h
    exact h
  obtain ⟨hfl, hact, hpd⟩ := hshort 29 (by decide)
  have hdrop : ∃ a, arrivals.drop 29 = [a] := by
    have hl : (arrivals.drop 29).length = 1 := by rw [List.length_drop, hlen]
    match hd : arrivals.drop 29, hl with
    | [a], _ => exact ⟨a, rfl⟩
  obtain ⟨a, ha⟩ := hdrop
  have hsplit : arrivals = arrivals.take 29 ++ [a] := by
    rw [← ha, List.take_append_drop]
  have hamem : a ∈ arrivals := by
    rw [hsplit]; simp
  obtain ⟨hapid, had⟩ := hall a hamem
  have hflush := HandleECGMessage_flush
    (run p ((arrivals.take 29).map ECGArrival.event)).proc a.msg a.api a.now stream
    (by rw [hact, hapid]; exact hs) hst had
    (by rw [hapid, hpd, List.length_map, List.length_take, hlen]; simp [chunkSize])
  have hmsgs : arrivals.map (fun a => a.msg) =
      (arrivals.take 29).map (fun a => a.msg) ++ [a.msg] := by
    conv_lhs => rw [hsplit]
    simp
  have hev : arrivals.map ECGArrival.event =
      (arrivals.take 29).map ECGArrival.event ++ [a.event] := by
    conv_lhs => rw [hsplit]
    simp
  have hfeq : (run p (arrivals.map ECGArrival.event)).flushed =
      [{ patientID := a.msg.PatientID
         batch := { Messages :=
           pendingOf (run p ((arrivals.take 29).map ECGArrival.event)).proc a.msg.PatientID ++
             [a.msg] }
         traceID := traceID a.msg.PatientID a.msg.PacketNo, spawned := true }] := by
    rw [hev, run_append_flushed, hfl, List.nil_append, run_cons_flushed, run_nil,
      List.append_nil]
    exact hflush.1
  refine ⟨⟨_, hfeq, hapid, ?_⟩, ?_, fun k hk => (hshort k hk).1⟩
  · show pendingOf _ a.msg.PatientID ++ [a.msg] = _
    rw [hmsgs, hapid, hpd]
  · rw [hev, run_append_proc, run_cons_proc, run_nil]
    show (HandleECGMessage _ (some a.msg) a.api a.now).proc.patientBatches pid = none
    rw [hflush.2.1, hapid]
    simp


/-- Instance of C1: thirty samples of "P1" with packet numbers 1 to 30. -/
theorem C1_witness :
    (∃ f, (run monitoringP1 (thirtyArrivals.map ECGArrival.event)).flushed = [f] ∧
        f.patientID = "P1" ∧ f.batch.Messages = thirtyArrivals.map (fun a => a.msg)) ∧
    (run monitoringP1 (thirtyArrivals.map ECGArrival.event)).proc.patientBatches "P1" = none ∧
    (∀ k, k < 30 →
      (run monitoringP1 ((thirtyArrivals.take k).map ECGArrival.event)).flushed = []) :=
  C1_thirty_samples_one_flush monitoringP1 "P1" (runningSession "P1" "D1") thirtyArrivals
    (by decide) (by decide) (by decide) (by decide) (by decide)


/-- The ECG handler keeps the stored batches bounded and hands over at most thirty
samples (and at least one). -/
theorem HandleECGMessage_bounded (p : BeltProcessor) (decoded : Option ECGMessage)
    (api : ApiAnswer) (now : Int) (hinv : BatchesBounded p) :
    BatchesBounded (HandleECGMessage p decoded api now).proc ∧
    ∀ f ∈ (HandleECGMessage p decoded api now).flushed,
      1 ≤ f.batch.Messages.length ∧ f.batch.Messages.length ≤ 30 := by
  cases decoded with
  | none => exact ⟨hinv, by simp [HandleECGMessage]⟩
  | some msg =>
    cases hs : p.activePatients msg.PatientID with
    | none => simp [HandleECGMessage, hs]; exact hinv
    | some stream =>
      by_cases hst : stream.Status = "stopped"
      · simp [HandleECGMessage, hs, hst]; exact hinv
      · cases hd : msg.Discharge with
        | true =>
          have hfr := processAndSendBatch_frame p msg.PatientID { Messages := [msg] } api now
          constructor
          · intro k b hk
            have : (HandleECGMessage p (some msg) api now).proc.patientBatches =
                p.patientBatches := by
              simp [HandleECGMessage, hs, hst, hd, hfr]
            rw [this] at hk
            exact hinv k b hk
          · simp [HandleECGMessage, hs, hst, hd]
        | false =>
          by_cases hlen : (pendingOf p msg.PatientID).length + 1 < chunkSize
          · rw [HandleECGMessage_append p msg api now stream hs hst hd hlen]
            refine ⟨?_, by simp⟩
            intro k b hk
            by_cases hkey : k = msg.PatientID
            · subst hkey
              simp at hk
              subst hk
              simp [chunkSize] at hlen ⊢
              omega
            · simp only [GoMap.set_other _ _ _ _ hkey] at hk
              exact hinv k b hk
          · have hfl := HandleECGMessage_flush p msg api now stream hs hst hd (by omega)
            constructor
            · intro k b hk
              rw [hfl.2.1] at hk
              by_cases hkey : k = msg.PatientID
              · subst hkey; simp at hk
              · rw [GoMap.delete_other _ _ _ hkey] at hk
                exact hinv k b hk
            · intro f hf
              rw [hfl.1] at hf
              simp only [List.mem_singleton] at hf
              subst hf
              have hp : (pendingOf p msg.PatientID).length < 30 := by
                unfold pendingOf
                cases hb : p.patientBatches msg.PatientID with
                | none => simp
                | some b => exact (hinv _ b hb).2
              simp only [List.length_append, List.length_singleton]
              omega

/-- Each handler keeps the stored batches bounded and hands over at most thirty
samples. -/
theorem step_bounded (p : BeltProcessor) (e : Event) (hinv : BatchesBounded p) :
    BatchesBounded (step p e).proc ∧
    ∀ f ∈ (step p e).flushed,
      1 ≤ f.batch.Messages.length ∧ f.batch.Messages.length ≤ 30 := by
  cases e with
  | svcStart decoded dbErr now =>
    refine ⟨?_, by simp [step]⟩
    have : (step p (Event.svcStart decoded dbErr now)).proc.patientBatches =
        p.patientBatches := by
      cases decoded with
      | none => rfl
      | some msg =>
        simp only [step, HandleSvcStartMessage]
        split_ifs <;> rfl
    intro k b hk
    rw [this] at hk
    exact hinv k b hk
  | svcAction decoded visit dbErr now =>
    refine ⟨?_, by simp [step]⟩
    cases decoded with
    | none => exact hinv
    | some msg =>
      simp only [step, HandleSvcActionMessage]
      split_ifs
      · exact hinv
      · exact hinv
      · intro k b hk
        simp only [GoMap.delete] at hk
        split_ifs at hk
        exact hinv k b hk
      · exact hinv
  | ecg decoded api now => exact HandleECGMessage_bounded p decoded api now hinv
  | vitals decoded now =>
    refine ⟨?_, by simp [step]⟩
    have : (step p (Event.vitals decoded now)).proc.patientBatches = p.patientBatches := by
      cases decoded with
      | none => rfl
      | some msg =>
        simp only [step, HandleBPSPO2Message]
        split_ifs <;> rfl
    intro k b hk
    rw [this] at hk
    exact hinv k b hk
  | tick now =>
    refine ⟨?_, by simp [step]⟩
    intro k b hk
    exact hinv k b hk

theorem run_bounded (events : List Event) : ∀ p : BeltProcessor, BatchesBounded p →
    BatchesBounded (run p events).proc ∧
    ∀ f ∈ (run p events).flushed,
      1 ≤ f.batch.Messages.length ∧ f.batch.Messages.length ≤ 30 := by
  induction events with
  | nil => intro p hinv; exact ⟨hinv, by simp [run_nil]⟩
  | cons e rest ih =>
    intro p hinv
    obtain ⟨h1, h2⟩ := step_bounded p e hinv
    obtain ⟨h3, h4⟩ := ih (step p e).proc h1
    refine ⟨by rw [run_cons_proc]; exact h3, ?_⟩
    intro f hf
    rw [run_cons_flushed, List.mem_append] at hf
    rcases hf with hf | hf
    · exact h2 f hf
    · exact h4 f hf

/-- C2: in every state reached from the empty processor by start events, action
events, ECG samples, vitals readings and housekeeping ticks, every stored pending
batch holds at least one and fewer than thirty samples, and every batch handed to
composition on the way holds at most thirty samples. -/
theorem C2_batches_bounded (endpointURL apiKey dataSource : String) (writeToFile : Bool)
    (events : List Event) :
    (∀ k b,
      (run (emptyProcessor endpointURL apiKey dataSource writeToFile) events).proc.patientBatches
          k = some b →
        1 ≤ b.Messages.length ∧ b.Messages.length < 30) ∧
    (∀ f ∈ (run (emptyProcessor endpointURL apiKey dataSource writeToFile) events).flushed,
      f.batch.Messages.length ≤ 30) := by
  have hinit : BatchesBounded (emptyProcessor endpointURL apiKey dataSource writeToFile) := by
    intro k b hk
    simp [emptyProcessor] at hk
  obtain ⟨h1, h2⟩ := run_bounded events _ hinit
  exact ⟨h1, fun f hf => (h2 f hf).2⟩


/-! ## Composition -/

/-- Method `processAndSendBatch` does nothing when no document is composed. -/
theorem processAndSendBatch_of_none (p : BeltProcessor) (patientID : String)
    (batch : PatientBatch) (api : ApiAnswer) (now : Int)
    (h : composePayload p patientID batch = none) :
    processAndSendBatch p patientID batch api now = (p, []) := by
  simp [processAndSendBatch, h]

/-- C8: composition yields a payload exactly when some sample of the batch has a
non-empty facility id; when none has (the empty batch included) nothing is composed,
no file is written, no request is made and the processor, with its pending
last-streamed-time set, is unchanged. -/
theorem C8_payload_iff_facility (p : BeltProcessor) (patientID : String)
    (batch : PatientBatch) (api : ApiAnswer) (now : Int) :
    ((composePayload p patientID batch).isSome = true ↔
        ∃ m ∈ batch.Messages, m.FacilityID ≠ "") ∧
    ((∀ m ∈ batch.Messages, m.FacilityID = "") →
        composePayload p patientID batch = none ∧
        (processAndSendBatch p patientID batch api now).2 = [] ∧
        (processAndSendBatch p patientID batch api now).1 = p ∧
        (processAndSendBatch p patientID batch api now).1.lastStreamedTimes =
          p.lastStreamedTimes) := by
  have hiff : (composePayload p patientID batch).isSome = true ↔
      ∃ m ∈ batch.Messages, m.FacilityID ≠ "" := by
    rw [composePayload_isSome, List.any_eq_true]
    constructor
    · rintro ⟨m, hm, hf⟩
      exact ⟨m, hm, by simpa using hf⟩
    · rintro ⟨m, hm, hf⟩
      exact ⟨m, hm, by simpa using hf⟩
  refine ⟨hiff, ?_⟩
  intro hall
  have hnone : composePayload p patientID batch = none := by
    cases hc : composePayload p patientID batch with
    | none => rfl
    | some out =>
      have hs : (composePayload p patientID batch).isSome = true := by simp [hc]
      obtain ⟨m, hm, hf⟩ := hiff.mp hs
      exact absurd (hall m hm) hf
  have hp := processAndSendBatch_of_none p patientID batch api now hnone
  refine ⟨hnone, ?_, ?_, ?_⟩ <;> rw [hp]

/-- C9: the header of the composed payload comes from the first sample of the batch
that has a non-empty facility id; the patient reference joins its facility, patient
and admission ids with dashes, the status is "Connected", the source is the
configured tag and the bed id is empty. -/
theorem C9_header_from_first_facility_sample (p : BeltProcessor) (patientID : String)
    (batch : PatientBatch) (m : ECGMessage)
    (hfirst : batch.Messages.find? (fun x => x.FacilityID != "") = some m) :
    ∃ out, composePayload p patientID batch = some out ∧
      out.DeviceType = m.DeviceType ∧
      out.FacilityID = m.FacilityID ∧
      out.PatchID = m.DeviceID ∧
      out.PatientName = m.PatientName ∧
      out.Timestamp = m.CurrentTimestamp ∧
      out.Gender = m.Gender ∧
      out.Age = m.Age ∧
      out.PatientRef = m.FacilityID ++ "-" ++ m.PatientID ++ "-" ++ m.AdmissionID ∧
      out.BiosensorStatus = "Connected" ∧
      out.Source = p.dataSource ∧
      out.BedID = "" := by
  have hmem := List.mem_of_find?_eq_some hfirst
  cases hlast : batch.Messages.getLast? with
  | none =>
    rw [List.getLast?_eq_none_iff] at hlast
    rw [hlast] at hmem
    cases hmem
  | some lastMessage =>
    rw [composePayload_eq, hfirst, hlast]
    cases hv : p.vitalsCache patientID <;> simp [setMetadata]

/-- C10: the sensor-data list of a composed payload has one entry per sample of the
batch, in order; entry `i` carries the packet number, timestamp, HR, RR and rhythm
type of sample `i` and no waveform values, also for samples before the first one
with a facility id. -/
theorem C10_sensor_data_per_sample (p : BeltProcessor) (patientID : String)
    (batch : PatientBatch) (out : PresensePayload)
    (hout : composePayload p patientID batch = some out) :
    out.SensorData.length = batch.Messages.length ∧
    out.SensorData = batch.Messages.map sensorItem ∧
    ∀ (i : Nat) (hi : i < batch.Messages.length) (ho : i < out.SensorData.length),
      (out.SensorData.get ⟨i, ho⟩).SEQ = (batch.Messages.get ⟨i, hi⟩).PacketNo ∧
      (out.SensorData.get ⟨i, ho⟩).Timestamp = (batch.Messages.get ⟨i, hi⟩).CurrentTimestamp ∧
      (out.SensorData.get ⟨i, ho⟩).HR = (batch.Messages.get ⟨i, hi⟩).HR ∧
      (out.SensorData.get ⟨i, ho⟩).RR = (batch.Messages.get ⟨i, hi⟩).RR ∧
      (out.SensorData.get ⟨i, ho⟩).RhythmType = (batch.Messages.get ⟨i, hi⟩).RhythmType ∧
      (out.SensorData.get ⟨i, ho⟩).ECG_CH_A = [] ∧
      (out.SensorData.get ⟨i, ho⟩).ECG_CH_B = [] := by
  have hsd : out.SensorData = batch.Messages.map sensorItem := by
    rw [composePayload_eq] at hout
    cases hfind : batch.Messages.find? (fun m => m.FacilityID != "") with
    | none => simp [hfind] at hout
    | some m =>
      cases hlast : batch.Messages.getLast? with
      | none => simp [hfind, hlast] at hout
      | some lastMessage =>
        rw [hfind, hlast] at hout
        cases hv : p.vitalsCache patientID <;> simp [hv] at hout <;> rw [← hout]
  refine ⟨by rw [hsd, List.length_map], hsd, ?_⟩
  intro i hi ho
  have hget : out.SensorData.get ⟨i, ho⟩ = sensorItem (batch.Messages.get ⟨i, hi⟩) := by
    simp [hsd]
  rw [hget]
  simp [sensorItem]


/-! ## Dropped samples, discharge and vitals -/

/-- C5: when every stored session is running or stopped, a sample (discharge or not)
whose patient has no session, or a session that is not running, triggers no flush and
no outside action and leaves the processor (pending batches, sessions, vitals cache)
unchanged; so a flush or a change of the pending batches needs a running session. -/
theorem C5_sample_without_running_session_dropped (p : BeltProcessor) (msg : ECGMessage)
    (api : ApiAnswer) (now : Int)
    (hdom : ∀ s, p.activePatients msg.PatientID = some s →
      s.Status = "running" ∨ s.Status = "stopped") :
    ((p.activePatients msg.PatientID = none ∨
        ∃ s, p.activePatients msg.PatientID = some s ∧ s.Status ≠ "running") →
      (HandleECGMessage p (some msg) api now).flushed = [] ∧
      (HandleECGMessage p (some msg) api now).effects = [] ∧
      (HandleECGMessage p (some msg) api now).proc = p ∧
      (HandleECGMessage p (some msg) api now).proc.patientBatches = p.patientBatches ∧
      (HandleECGMessage p (some msg) api now).proc.activePatients = p.activePatients ∧
      (HandleECGMessage p (some msg) api now).proc.vitalsCache = p.vitalsCache) ∧
    (((HandleECGMessage p (some msg) api now).flushed ≠ [] ∨
        (HandleECGMessage p (some msg) api now).proc.patientBatches ≠ p.patientBatches) →
      ∃ s, p.activePatients msg.PatientID = some s ∧ s.Status = "running") := by
  have hdrop : (p.activePatients msg.PatientID = none ∨
        ∃ s, p.activePatients msg.PatientID = some s ∧ s.Status ≠ "running") →
      HandleECGMessage p (some msg) api now = { proc := p } := by
    rintro (hnone | ⟨s, hs, hnr⟩)
    · simp [HandleECGMessage, hnone]
    · have hstop : s.Status = "stopped" := (hdom s hs).resolve_left hnr
      simp [HandleECGMessage, hs, hstop]
  constructor
  · intro h
    rw [hdrop h]
    simp
  · intro hchg
    cases hs : p.activePatients msg.PatientID with
    | none =>
      rw [hdrop (Or.inl hs)] at hchg
      simp at hchg
    | some s =>
      by_cases hrun : s.Status = "running"
      · exact ⟨s, rfl, hrun⟩
      · rw [hdrop (Or.inr ⟨s, hs, hrun⟩)] at hchg
        simp at hchg

/-- C6: a vitals reading with a non-empty patient id leaves a cache entry whose SpO2
and pulse rate are valid with the reading's values and timestamp; with systolic 0 the
cached blood pressure is the one cached before (the not-valid zero value when there
was no entry), otherwise it is valid with the reading's systolic, diastolic and
timestamp. -/
theorem C6_vitals_update (p : BeltProcessor) (msg : BPSPO2Message) (now : Int)
    (hpid : msg.PatientID ≠ "") :
    ∃ v, (HandleBPSPO2Message p (some msg) now).vitalsCache msg.PatientID = some v ∧
      v.SPO2 = { IsValid := true, Value := msg.SPO2.Spo2, Timestamp := msg.EpochTime } ∧
      v.PR = { IsValid := true, Value := msg.SPO2.PulseRate, Timestamp := msg.EpochTime } ∧
      (msg.BP.BPSystolic = 0 →
        v.BP = (match p.vitalsCache msg.PatientID with
          | some old => old.BP
          | none => { IsValid := false, Sys := 0, Dia := 0, Timestamp := 0 })) ∧
      (msg.BP.BPSystolic ≠ 0 →
        v.BP = { IsValid := true, Sys := msg.BP.BPSystolic, Dia := msg.BP.BPDiastolic,
                 Timestamp := msg.EpochTime }) := by
  by_cases hsys : msg.BP.BPSystolic = 0
  · cases hv : p.vitalsCache msg.PatientID <;>
      simp [HandleBPSPO2Message, hpid, hsys, hv]
  · cases hv : p.vitalsCache msg.PatientID <;>
      simp [HandleBPSPO2Message, hpid, hsys, hv]


/-! ## Housekeeping -/

/-- On values whose difference fits `int64`, `sub64` is the difference. -/
theorem sub64_of_fits (a b : Int) (hlo : -(2 ^ 63) ≤ a - b) (hhi : a - b < 2 ^ 63) :
    sub64 a b = a - b := by
  unfold sub64 wrap64
  have h : (a - b + 2 ^ 63) % 2 ^ 64 = a - b + 2 ^ 63 :=
    Int.emod_eq_of_lt (by omega) (by omega)
  rw [h]
  omega

/-- Without a cache entry the composed payload carries the zero-value vitals. -/
theorem composePayload_vitals_of_none (p : BeltProcessor) (patientID : String)
    (batch : PatientBatch) (out : PresensePayload)
    (hnone : p.vitalsCache patientID = none)
    (hout : composePayload p patientID batch = some out) :
    out.BP = {} ∧ out.SPO2 = {} ∧ out.PR = {} := by
  rw [composePayload_eq] at hout
  cases hfind : batch.Messages.find? (fun m => m.FacilityID != "") with
  | none => simp [hfind] at hout
  | some m =>
    cases hlast : batch.Messages.getLast? with
    | none => simp [hfind, hlast] at hout
    | some lastMessage =>
      rw [hfind, hlast] at hout
      simp [hnone] at hout
      rw [← hout]
      simp [setMetadata]

/-- C7: a housekeeping tick at time `now` keeps, unchanged, exactly the cache entries
whose last update `t` has `now - t ≤ 300` (the subtraction of the code, which is the
plain difference for clock readings) and removes the others; a payload composed
afterwards for a patient whose entry was removed carries not-valid BP, SpO2 and PR. -/
theorem C7_tick_evicts_stale_vitals (p : BeltProcessor) (now : Int) (pid : String) :
    ((housekeepingTick p now).1.vitalsCache pid =
      match p.vitalsCache pid with
      | some v => if sub64 now v.LastUpdated ≤ 300 then some v else none
      | none => none) ∧
    (∀ t : Int, 0 ≤ now → now < 2 ^ 63 → 0 ≤ t → t < 2 ^ 63 → sub64 now t = now - t) ∧
    (∀ v, p.vitalsCache pid = some v → sub64 now v.LastUpdated > 300 →
      (housekeepingTick p now).1.vitalsCache pid = none ∧
      ∀ batch out, composePayload (housekeepingTick p now).1 pid batch = some out →
        out.BP.IsValid = false ∧ out.SPO2.IsValid = false ∧ out.PR.IsValid = false) := by
  have hlookup : (housekeepingTick p now).1.vitalsCache pid =
      match p.vitalsCache pid with
      | some v => if sub64 now v.LastUpdated ≤ 300 then some v else none
      | none => none := by
    simp only [housekeepingTick, GoMap.filter]
    cases p.vitalsCache pid with
    | none => rfl
    | some v =>
      by_cases h : sub64 now v.LastUpdated ≤ 300
      · have h' : ¬ sub64 now v.LastUpdated > 300 := by omega
        simp [h, h']
      · have h' : sub64 now v.LastUpdated > 300 := by omega
        simp [h, h']
  refine ⟨hlookup, ?_, ?_⟩
  · intro t h1 h2 h3 h4
    exact sub64_of_fits now t (by omega) (by omega)
  · intro v hv hstale
    have hgone : (housekeepingTick p now).1.vitalsCache pid = none := by
      rw [hlookup, hv]
      have h' : ¬ sub64 now v.LastUpdated ≤ 300 := by omega
      simp [h']
    refine ⟨hgone, ?_⟩
    intro batch out hout
    obtain ⟨h1, h2, h3⟩ := composePayload_vitals_of_none _ pid batch out hgone hout
    rw [h1, h2, h3]
    exact ⟨rfl, rfl, rfl⟩


/-! ## Stopping a session -/

theorem ecgSamples_cons (e : Event) (rest : List Event) :
    ecgSamples (e :: rest) = ecgSamples [e] ++ ecgSamples rest := by
  unfold ecgSamples
  rw [← List.filterMap_append]
  rfl

theorem pendingOf_congr (p q : BeltProcessor) (pid : String)
    (h : q.patientBatches pid = p.patientBatches pid) : pendingOf q pid = pendingOf p pid := by
  unfold pendingOf
  rw [h]

/-- Whatever the ECG handler flushes or keeps pending for a patient was pending for
that patient before or is the sample just handled. -/
theorem HandleECGMessage_sources (p : BeltProcessor) (decoded : Option ECGMessage)
    (api : ApiAnswer) (now : Int) (pid : String) :
    (∀ f ∈ (HandleECGMessage p decoded api now).flushed, f.patientID = pid →
      ∀ m ∈ f.batch.Messages,
        m ∈ pendingOf p pid ∨ m ∈ ecgSamples [Event.ecg decoded api now]) ∧
    (∀ m ∈ pendingOf (HandleECGMessage p decoded api now).proc pid,
        m ∈ pendingOf p pid ∨ m ∈ ecgSamples [Event.ecg decoded api now]) := by
  cases decoded with
  | none =>
    refine ⟨by simp [HandleECGMessage], ?_⟩
    intro m hm
    exact Or.inl hm
  | some msg =>
    have hsample : ecgSamples [Event.ecg (some msg) api now] = [msg] := rfl
    rw [hsample]
    cases hs : p.activePatients msg.PatientID with
    | none =>
      have : HandleECGMessage p (some msg) api now = { proc := p } := by
        simp [HandleECGMessage, hs]
      rw [this]
      exact ⟨by simp, fun m hm => Or.inl hm⟩
    | some stream =>
      by_cases hst : stream.Status = "stopped"
      · have : HandleECGMessage p (some msg) api now = { proc := p } := by
          simp [HandleECGMessage, hs, hst]
        rw [this]
        exact ⟨by simp, fun m hm => Or.inl hm⟩
      · cases hd : msg.Discharge with
        | true =>
          have hfr := processAndSendBatch_frame p msg.PatientID { Messages := [msg] } api now
          have hfl : (HandleECGMessage p (some msg) api now).flushed =
              [{ patientID := msg.PatientID, batch := { Messages := [msg] },
                 traceID := traceID msg.PatientID msg.PacketNo, spawned := false }] := by
            simp [HandleECGMessage, hs, hst, hd]
          have hpb : (HandleECGMessage p (some msg) api now).proc.patientBatches =
              p.patientBatches := by
            simp [HandleECGMessage, hs, hst, hd, hfr]
          constructor
          · intro f hf _ m hm
            rw [hfl, List.mem_singleton] at hf
            subst hf
            exact Or.inr hm
          · intro m hm
            rw [pendingOf_congr p _ pid (by rw [hpb])] at hm
            exact Or.inl hm
        | false =>
          by_cases hlen : (pendingOf p msg.PatientID).length + 1 < chunkSize
          · rw [HandleECGMessage_append p msg api now stream hs hst hd hlen]
            refine ⟨by simp, ?_⟩
            intro m hm
            by_cases hkey : pid = msg.PatientID
            · subst hkey
              rw [pendingOf_set_same, List.mem_append] at hm
              exact hm
            · rw [pendingOf_congr p _ pid (GoMap.set_other _ _ _ _ hkey)] at hm
              exact Or.inl hm
          · have hfl := HandleECGMessage_flush p msg api now stream hs hst hd (by omega)
            constructor
            · intro f hf hfp m hm
              rw [hfl.1, List.mem_singleton] at hf
              subst hf
              simp only at hfp
              subst hfp
              exact List.mem_append.mp hm
            · intro m hm
              by_cases hkey : pid = msg.PatientID
              · subst hkey
                have : pendingOf (HandleECGMessage p (some msg) api now).proc msg.PatientID
                    = [] := by
                  apply pendingOf_of_none
                  rw [hfl.2.1]
                  simp
                rw [this] at hm
                cases hm
              · rw [pendingOf_congr p _ pid
                  (by rw [hfl.2.1]; exact GoMap.delete_other _ _ _ hkey)] at hm
                exact Or.inl hm


/-- The handlers other than the ECG handler flush nothing and add nothing to a
pending batch. -/
theorem step_sources (p : BeltProcessor) (e : Event) (pid : String) :
    (∀ f ∈ (step p e).flushed, f.patientID = pid →
      ∀ m ∈ f.batch.Messages, m ∈ pendingOf p pid ∨ m ∈ ecgSamples [e]) ∧
    (∀ m ∈ pendingOf (step p e).proc pid, m ∈ pendingOf p pid ∨ m ∈ ecgSamples [e]) := by
  cases e with
  | ecg decoded api now => exact HandleECGMessage_sources p decoded api now pid
  | svcStart decoded dbErr now =>
    refine ⟨by simp [step], fun m hm => Or.inl ?_⟩
    have : (step p (Event.svcStart decoded dbErr now)).proc.patientBatches =
        p.patientBatches := by
      cases decoded with
      | none => rfl
      | some msg =>
        simp only [step, HandleSvcStartMessage]
        split_ifs <;> rfl
    rw [pendingOf_congr p _ pid (by rw [this])] at hm
    exact hm
  | svcAction decoded visit dbErr now =>
    refine ⟨by simp [step], fun m hm => Or.inl ?_⟩
    cases decoded with
    | none => exact hm
    | some msg =>
      simp only [step, HandleSvcActionMessage] at hm
      split_ifs at hm
      · exact hm
      · exact hm
      · unfold pendingOf at hm ⊢
        simp only [GoMap.delete] at hm
        split_ifs at hm
        · cases hm
        · exact hm
      · exact hm
  | vitals decoded now =>
    refine ⟨by simp [step], fun m hm => Or.inl ?_⟩
    have : (step p (Event.vitals decoded now)).proc.patientBatches = p.patientBatches := by
      cases decoded with
      | none => rfl
      | some msg =>
        simp only [step, HandleBPSPO2Message]
        split_ifs <;> rfl
    rw [pendingOf_congr p _ pid (by rw [this])] at hm
    exact hm
  | tick now => exact ⟨by simp [step], fun m hm => Or.inl hm⟩

/-- Along any sequence of events, the samples flushed or left pending for a patient
were pending for that patient at the start or arrived during the sequence. -/
theorem run_sources (pid : String) (events : List Event) : ∀ p : BeltProcessor,
    (∀ f ∈ (run p events).flushed, f.patientID = pid →
      ∀ m ∈ f.batch.Messages, m ∈ pendingOf p pid ∨ m ∈ ecgSamples events) ∧
    (∀ m ∈ pendingOf (run p events).proc pid,
      m ∈ pendingOf p pid ∨ m ∈ ecgSamples events) := by
  induction events with
  | nil =>
    intro p
    exact ⟨by simp [run_nil], fun m hm => Or.inl hm⟩
  | cons e rest ih =>
    intro p
    obtain ⟨hs1, hs2⟩ := step_sources p e pid
    obtain ⟨hr1, hr2⟩ := ih (step p e).proc
    have hlift : ∀ m, (m ∈ pendingOf (step p e).proc pid ∨ m ∈ ecgSamples rest) →
        m ∈ pendingOf p pid ∨ m ∈ ecgSamples (e :: rest) := by
      intro m hm
      rw [ecgSamples_cons, List.mem_append]
      rcases hm with hm | hm
      · rcases hs2 m hm with h | h
        · exact Or.inl h
        · exact Or.inr (Or.inl h)
      · exact Or.inr (Or.inr hm)
    constructor
    · intro f hf hfp m hm
      rw [run_cons_flushed, List.mem_append] at hf
      rcases hf with hf | hf
      · rcases hs1 f hf hfp m hm with h | h
        · exact Or.inl h
        · rw [ecgSamples_cons, List.mem_append]
          exact Or.inr (Or.inl h)
      · exact hlift m (hr1 f hf hfp m hm)
    · intro m hm
      rw [run_cons_proc] at hm
      exact hlift m (hr2 m hm)

/-- The scan finds the patient when its session is the only one on the device. -/
theorem findPatientToStop_unique (activePatients : GoMap PatientStream) (pid d : String)
    (stream : PatientStream) (hs : activePatients pid = some stream)
    (hdev : stream.DeviceID = d)
    (honly : ∀ k s, activePatients k = some s → s.DeviceID = d → k = pid)
    (visit : List String) (hvisit : pid ∈ visit) :
    findPatientToStop activePatients visit d = pid := by
  induction visit with
  | nil => cases hvisit
  | cons id rest ih =>
    unfold findPatientToStop
    cases hid : activePatients id with
    | none =>
      simp only
      apply ih
      rcases List.mem_cons.mp hvisit with h | h
      · rw [h, hid] at hs; cases hs
      · exact h
    | some s =>
      simp only
      by_cases hsd : s.DeviceID = d
      · rw [if_pos hsd]
        exact honly id s hid hsd
      · rw [if_neg hsd]
        apply ih
        rcases List.mem_cons.mp hvisit with h | h
        · rw [h, hid] at hs
          cases hs
          exact absurd hdev hsd
        · exact h

/-- C4 (amended): when a patient with a non-empty id has a session on device `d` and
a pending batch, and no other stored session is on device `d`, a stop action for `d`
whose persistence succeeds removes that patient's pending batch, and in every later
sequence of events each sample of a batch flushed for that patient arrived after the
stop. -/
theorem C4_stop_discards_pending (p : BeltProcessor) (pid d : String)
    (stream : PatientStream) (batch : PatientBatch) (visit : List String) (now : Int)
    (hpid : pid ≠ "") (hs : p.activePatients pid = some stream)
    (hdev : stream.DeviceID = d) (_hb : p.patientBatches pid = some batch)
    (honly : ∀ k s, p.activePatients k = some s → s.DeviceID = d → k = pid)
    (hvisit : pid ∈ visit) :
    (HandleSvcActionMessage p (some { PatchID := d, Action := "stop" }) visit false
        now).patientBatches pid = none ∧
    ∀ events : List Event,
      ∀ f ∈ (run (HandleSvcActionMessage p (some { PatchID := d, Action := "stop" }) visit
          false now) events).flushed,
        f.patientID = pid → ∀ m ∈ f.batch.Messages, m ∈ ecgSamples events := by
  have hfind := findPatientToStop_unique p.activePatients pid d stream hs hdev honly visit
    hvisit
  have hgone : (HandleSvcActionMessage p (some { PatchID := d, Action := "stop" }) visit
      false now).patientBatches pid = none := by
    simp [HandleSvcActionMessage, hfind, hpid]
  refine ⟨hgone, ?_⟩
  intro events f hf hfp m hm
  rcases (run_sources pid events _).1 f hf hfp m hm with h | h
  · rw [pendingOf_of_none _ pid hgone] at h
    cases h
  · exact h


/-- C4 fails as stated.  With patients "P1" and "P2" both on device "D1" and a sample
pending for "P2", a stop for "D1" whose scan meets "P1" first leaves the batch of "P2"
in place, and the flush after 29 further samples starts with the sample buffered
before the stop.  With a session of the empty patient id on "D1" the stop does
nothing at all. -/
theorem C4_counterexample :
    ((sharedDevice.activePatients "P2").map (fun s => s.DeviceID) = some "D1" ∧
      sharedDevice.patientBatches "P2" = some { Messages := [sampleECG "P2" "F1" 1] } ∧
      (HandleSvcActionMessage sharedDevice (some (stopOf "D1")) ["P1", "P2"] false
          1700000003).patientBatches "P2" = some { Messages := [sampleECG "P2" "F1" 1] } ∧
      ((run (HandleSvcActionMessage sharedDevice (some (stopOf "D1")) ["P1", "P2"] false
          1700000003) ((laterArrivals "P2").map ECGArrival.event)).flushed.map
            (fun f => (f.patientID, f.batch.Messages.head?))) =
        [("P2", some (sampleECG "P2" "F1" 1))] ∧
      sampleECG "P2" "F1" 1 ∉ ecgSamples ((laterArrivals "P2").map ECGArrival.event)) ∧
    ((nameless.activePatients "").map (fun s => s.DeviceID) = some "D1" ∧
      nameless.patientBatches "" = some { Messages := [sampleECG "" "F1" 1] } ∧
      (HandleSvcActionMessage nameless (some (stopOf "D1")) [""] false
          1700000003).patientBatches "" = some { Messages := [sampleECG "" "F1" 1] }) := by
  decide

/-- Instance of C4 (amended): patient "P1" alone on device "D1" with one sample
pending. -/
theorem C4_witness :
    (HandleSvcActionMessage pendingP1 (some { PatchID := "D1", Action := "stop" }) ["P1"]
        false 1700000003).patientBatches "P1" = none ∧
    ∀ events : List Event,
      ∀ f ∈ (run (HandleSvcActionMessage pendingP1
          (some { PatchID := "D1", Action := "stop" }) ["P1"] false 1700000003)
          events).flushed,
        f.patientID = "P1" → ∀ m ∈ f.batch.Messages, m ∈ ecgSamples events :=
  C4_stop_discards_pending pendingP1 "P1" "D1" (runningSession "P1" "D1")
    { Messages := [sampleECG "P1" "F1" 1] } ["P1"] 1700000003
    (by decide) (by decide) (by decide) (by decide)
    (by
      intro k s hk _
      by_contra hne
      simp [pendingP1, monitoringP1, idleProcessor, emptyProcessor, GoMap.set, hne] at hk)
    (by decide)


/-! ## Instances and the status domain -/

/-- Instance of C5: a sample of "P1" after its session was stopped. -/
theorem C5_witness :
    (stoppedP1.activePatients "P1").map (fun s => s.Status) = some "stopped" ∧
    (HandleECGMessage stoppedP1 (some (sampleECG "P1" "F1" 2)) (ApiAnswer.status 200)
        1700000100).flushed = [] ∧
    (HandleECGMessage stoppedP1 (some (sampleECG "P1" "F1" 2)) (ApiAnswer.status 200)
        1700000100).proc = stoppedP1 :=
  have hstored : stoppedP1.activePatients "P1" =
      some { runningSession "P1" "D1" with Status := "stopped", EndTime := some 1700000003 } :=
    by decide
  have h := (C5_sample_without_running_session_dropped stoppedP1 (sampleECG "P1" "F1" 2)
    (ApiAnswer.status 200) 1700000100
    (by intro s hs
        have hs' : stoppedP1.activePatients "P1" = some s := hs
        rw [hstored] at hs'
        cases hs'
        exact Or.inr rfl)).1
    (Or.inr ⟨_, hstored, by decide⟩)
  ⟨by decide, h.1, h.2.2.1⟩

/-- Instance of C6: the reading spo2 97, pulse rate 72, systolic 0 on an empty cache. -/
theorem C6_witness :
    readingP1.PatientID ≠ "" ∧
    ∃ v, (HandleBPSPO2Message idleProcessor (some readingP1) 1700000060).vitalsCache "P1" =
        some v ∧
      v.SPO2 = { IsValid := true, Value := 97, Timestamp := 1700000050 } ∧
      v.PR = { IsValid := true, Value := 72, Timestamp := 1700000050 } ∧
      (readingP1.BP.BPSystolic = 0 →
        v.BP = (match idleProcessor.vitalsCache readingP1.PatientID with
          | some old => old.BP
          | none => { IsValid := false, Sys := 0, Dia := 0, Timestamp := 0 })) ∧
      (readingP1.BP.BPSystolic ≠ 0 →
        v.BP = { IsValid := true, Sys := readingP1.BP.BPSystolic,
                 Dia := readingP1.BP.BPDiastolic, Timestamp := readingP1.EpochTime }) :=
  ⟨by decide, C6_vitals_update idleProcessor readingP1 1700000060 (by decide)⟩

/-- Instance of C10: the two-sample batch whose first sample has no facility id. -/
theorem C10_witness :
    composePayload idleProcessor "P1" twoSamples = some twoSamplesPayload ∧
    twoSamplesPayload.SensorData.length = twoSamples.Messages.length ∧
    twoSamplesPayload.SensorData = twoSamples.Messages.map sensorItem :=
  have h := C10_sensor_data_per_sample idleProcessor "P1" twoSamples twoSamplesPayload
    (by decide)
  ⟨by decide, h.1, h.2.1⟩

/-- The handlers write only the statuses running and stopped. -/
theorem step_status_domain (p : BeltProcessor) (e : Event) (hdom : StatusDomain p) :
    StatusDomain (step p e).proc := by
  cases e with
  | svcStart decoded dbErr now =>
    cases decoded with
    | none => exact hdom
    | some msg =>
      simp only [step, HandleSvcStartMessage]
      split_ifs
      · exact hdom
      · exact hdom
      · intro k s hk
        simp only [GoMap.set] at hk
        split_ifs at hk
        · cases hk; exact Or.inl rfl
        · exact hdom k s hk
  | svcAction decoded visit dbErr now =>
    cases decoded with
    | none => exact hdom
    | some msg =>
      simp only [step, HandleSvcActionMessage]
      split_ifs
      · exact hdom
      · exact hdom
      · intro k s hk
        simp only at hk
        split at hk
        · simp only [GoMap.set] at hk
          split_ifs at hk
          · cases hk; exact Or.inr rfl
          · exact hdom k s hk
        · exact hdom k s hk
      · exact hdom
  | ecg decoded api now =>
    have hact : (HandleECGMessage p decoded api now).proc.activePatients = p.activePatients := by
      cases decoded with
      | none => rfl
      | some msg =>
        cases hs : p.activePatients msg.PatientID with
        | none => simp [HandleECGMessage, hs]
        | some stream =>
          have hfr := fun b => processAndSendBatch_frame p msg.PatientID b api now
          simp only [HandleECGMessage, hs]
          split_ifs
          · rfl
          · exact (hfr _).1
          · exact (hfr _).1
          · rfl
    intro k s hk
    simp only [step] at hk
    rw [hact] at hk
    exact hdom k s hk
  | vitals decoded now =>
    have : (step p (Event.vitals decoded now)).proc.activePatients = p.activePatients := by
      cases decoded with
      | none => rfl
      | some msg =>
        simp only [step, HandleBPSPO2Message]
        split_ifs <;> rfl
    intro k s hk
    rw [this] at hk
    exact hdom k s hk
  | tick now =>
    intro k s hk
    simp only [step, housekeepingTick, GoMap.filter] at hk
    split at hk
    · split_ifs at hk
      cases hk
      exact hdom k _ (by assumption)
    · cases hk

/-- Every state reached from a processor whose sessions are running or stopped has
only running or stopped sessions; the empty processor is such a start. -/
theorem run_status_domain (events : List Event) :
    ∀ p : BeltProcessor, StatusDomain p → StatusDomain (run p events).proc := by
  induction events with
  | nil => intro p h; exact h
  | cons e rest ih =>
    intro p h
    rw [run_cons_proc]
    exact ih _ (step_status_domain p e h)


/-- Instance of C9: facility "F1", patient "P1", empty admission id give the patient
reference "F1-P1-". -/
theorem C9_witness :
    (([sampleECG "P1" "" 1, sampleECG "P1" "F1" 2] : List ECGMessage).find?
        (fun x => x.FacilityID != "") = some (sampleECG "P1" "F1" 2)) ∧
    ∃ out, composePayload idleProcessor "P1"
        { Messages := [sampleECG "P1" "" 1, sampleECG "P1" "F1" 2] } = some out ∧
      out.DeviceType = (sampleECG "P1" "F1" 2).DeviceType ∧
      out.FacilityID = "F1" ∧
      out.PatchID = "D1" ∧
      out.PatientName = (sampleECG "P1" "F1" 2).PatientName ∧
      out.Timestamp = (sampleECG "P1" "F1" 2).CurrentTimestamp ∧
      out.Gender = (sampleECG "P1" "F1" 2).Gender ∧
      out.Age = (sampleECG "P1" "F1" 2).Age ∧
      out.PatientRef = "F1" ++ "-" ++ "P1" ++ "-" ++ "" ∧
      out.BiosensorStatus = "Connected" ∧
      out.Source = "DefaultSource" ∧
      out.BedID = "" :=
  ⟨by decide,
   C9_header_from_first_facility_sample idleProcessor "P1"
     { Messages := [sampleECG "P1" "" 1, sampleECG "P1" "F1" 2] } (sampleECG "P1" "F1" 2)
     (by decide)⟩


/-- Instance of C7: an entry last updated at 1700000060 survives the tick at
1700000360 and is removed by the tick at 1700000361. -/
theorem C7_witness :
    (housekeepingTick (HandleBPSPO2Message idleProcessor (some readingP1) 1700000060)
        1700000361).1.vitalsCache "P1" = none ∧
    (housekeepingTick (HandleBPSPO2Message idleProcessor (some readingP1) 1700000060)
        1700000360).1.vitalsCache "P1" =
      (HandleBPSPO2Message idleProcessor (some readingP1) 1700000060).vitalsCache "P1" ∧
    ((HandleBPSPO2Message idleProcessor (some readingP1) 1700000060).vitalsCache "P1").isSome
      = true :=
  ⟨((C7_tick_evicts_stale_vitals
      (HandleBPSPO2Message idleProcessor (some readingP1) 1700000060) 1700000361 "P1").2.2
      { SPO2 := { IsValid := true, Value := 97, Timestamp := 1700000050 },
        PR := { IsValid := true, Value := 72, Timestamp := 1700000050 },
        DeviceID := "V1", LastUpdated := 1700000060 }
      (by decide) (by decide)).1,
   by decide, by decide⟩

/-- Instance of C8: a batch whose only sample has no facility id. -/
theorem C8_witness :
    composePayload idleProcessor "P1" { Messages := [sampleECG "P1" "" 1] } = none ∧
    (processAndSendBatch idleProcessor "P1" { Messages := [sampleECG "P1" "" 1] }
        (ApiAnswer.status 200) 1700000100).2 = [] :=
  have h := (C8_payload_iff_facility idleProcessor "P1" { Messages := [sampleECG "P1" "" 1] }
    (ApiAnswer.status 200) 1700000100).2 (by decide)
  ⟨h.1, h.2.1⟩

/-- Rows restored by `loadActivePatients` keep the status domain when each row is
running (the query of `GetActivePatients` selects `status = 'running'`). -/
theorem loadActivePatients_status_domain (rows : List PatientStream) :
    ∀ p : BeltProcessor, StatusDomain p → (∀ r ∈ rows, r.Status = "running") →
      StatusDomain (loadActivePatients p rows) := by
  induction rows with
  | nil => intro p hp _; exact hp
  | cons r rest ih =>
    intro p hp hrows
    have hstep : StatusDomain { p with activePatients := p.activePatients.set r.PatientID r } := by
      intro k s hk
      simp only [GoMap.set] at hk
      split_ifs at hk
      · cases hk
        exact Or.inl (hrows r (List.mem_cons_self _ _))
      · exact hp k s hk
    exact ih _ hstep (fun x hx => hrows x (List.mem_cons_of_mem _ hx))

set_option maxRecDepth 100000 in
/-- The scenario of the specification: start patient "P1" of facility "F1" on device
"D1", then thirty samples; one request is made, with thirty sensor entries, patient
reference "F1-P1-" and status "Connected". -/
theorem scenario_start_then_thirty_samples :
    (run idleProcessor
        (Event.svcStart (some (startOf "P1" "D1")) false 1700000000 ::
          thirtyArrivals.map ECGArrival.event)).effects.map
      (fun e =>
        match e with
        | Effect.httpPost _ _ doc => (doc.PatientRef, doc.SensorData.length, doc.BiosensorStatus)
        | Effect.httpFollow _ _ => ("", 0, "")
        | Effect.saveToFile _ _ _ doc =>
          (doc.PatientRef, doc.SensorData.length, doc.BiosensorStatus)) =
      [("F1-P1-", 30, "Connected")] := by
  decide


/-! ## Vitals in the payload and session start -/

/-- C11 fails as stated.  A reading whose patient id is empty is not cached: with an
empty cache, after the reading spo2 97, pulse rate 72, systolic 0 for the patient "",
the payload composed from a batch of that patient is produced with SpO2 and PR not
valid. -/
theorem C11_counterexample :
    idleProcessor.vitalsCache "" = none ∧
    (composePayload
        (HandleBPSPO2Message idleProcessor (some { readingP1 with PatientID := "" })
          1700000060)
        "" { Messages := [sampleECG "" "F1" 1] }).map
      (fun out => (out.SPO2.IsValid, out.SPO2.Value, out.PR.IsValid, out.PR.Value)) =
      some (false, 0, false, 0) := by
  decide

/-- A cached entry supplies the vitals of the composed payload. -/
theorem composePayload_vitals_of_some (p : BeltProcessor) (patientID : String)
    (batch : PatientBatch) (out : PresensePayload) (cachedData : CachedVitals)
    (hsome : p.vitalsCache patientID = some cachedData)
    (hout : composePayload p patientID batch = some out) :
    out.BP = cachedData.BP ∧ out.SPO2 = cachedData.SPO2 ∧ out.PR = cachedData.PR := by
  rw [composePayload_eq] at hout
  cases hfind : batch.Messages.find? (fun m => m.FacilityID != "") with
  | none => simp [hfind] at hout
  | some m =>
    cases hlast : batch.Messages.getLast? with
    | none => simp [hfind, hlast] at hout
    | some lastMessage =>
      rw [hfind, hlast] at hout
      simp [hsome] at hout
      rw [← hout]
      exact ⟨rfl, rfl, rfl⟩

/-- A batch with a sample that has a facility id yields a payload. -/
theorem composePayload_of_facility (p : BeltProcessor) (patientID : String)
    (batch : PatientBatch) (hfac : ∃ m ∈ batch.Messages, m.FacilityID ≠ "") :
    ∃ out, composePayload p patientID batch = some out := by
  have h : (composePayload p patientID batch).isSome = true := by
    rw [composePayload_isSome, List.any_eq_true]
    obtain ⟨m, hm, hf⟩ := hfac
    exact ⟨m, hm, by simpa using hf⟩
  exact Option.isSome_iff_exists.mp h

/-- C11 (amended): for a patient with a non-empty id and no cached vitals entry, after
a reading with spo2 `s`, pulse rate `r` and systolic 0 the payload composed from any
batch of that patient with a sample that has a facility id carries SpO2 valid with
value `s`, PR valid with value `r` and BP not valid; for any patient without a cached
entry the payload is still produced, with SpO2, PR and BP not valid. -/
theorem C11_vitals_in_payload (p : BeltProcessor) (msg : BPSPO2Message) (now : Int)
    (batch : PatientBatch) (hpid : msg.PatientID ≠ "")
    (hnone : p.vitalsCache msg.PatientID = none) (hsys : msg.BP.BPSystolic = 0)
    (hfac : ∃ m ∈ batch.Messages, m.FacilityID ≠ "") :
    (∃ out, composePayload (HandleBPSPO2Message p (some msg) now) msg.PatientID batch =
        some out ∧
      out.SPO2.IsValid = true ∧ out.SPO2.Value = msg.SPO2.Spo2 ∧
      out.PR.IsValid = true ∧ out.PR.Value = msg.SPO2.PulseRate ∧
      out.BP.IsValid = false) ∧
    (∀ patientID, p.vitalsCache patientID = none →
      ∃ out, composePayload p patientID batch = some out ∧
        out.SPO2.IsValid = false ∧ out.PR.IsValid = false ∧ out.BP.IsValid = false) := by
  constructor
  · obtain ⟨out, hout⟩ :=
      composePayload_of_facility (HandleBPSPO2Message p (some msg) now) msg.PatientID batch
        hfac
    have hcache : (HandleBPSPO2Message p (some msg) now).vitalsCache msg.PatientID =
        some { SPO2 := { IsValid := true, Value := msg.SPO2.Spo2, Timestamp := msg.EpochTime },
               PR := { IsValid := true, Value := msg.SPO2.PulseRate,
                       Timestamp := msg.EpochTime },
               DeviceID := msg.DeviceID, LastUpdated := now } := by
      simp [HandleBPSPO2Message, hpid, hsys, hnone]
    obtain ⟨h1, h2, h3⟩ := composePayload_vitals_of_some _ _ batch out _ hcache hout
    refine ⟨out, hout, ?_⟩
    rw [h1, h2, h3]
    exact ⟨rfl, rfl, rfl, rfl, rfl⟩
  · intro patientID hpn
    obtain ⟨out, hout⟩ := composePayload_of_facility p patientID batch hfac
    obtain ⟨h1, h2, h3⟩ := composePayload_vitals_of_none p patientID batch out hpn hout
    refine ⟨out, hout, ?_⟩
    rw [h1, h2, h3]
    exact ⟨rfl, rfl, rfl⟩

/-- Instance of C11 (amended): the reading spo2 97, pulse rate 72, systolic 0 of
patient "P1", then a batch of "P1". -/
theorem C11_witness :
    (∃ out, composePayload (HandleBPSPO2Message idleProcessor (some readingP1) 1700000060)
        "P1" twoSamples = some out ∧
      out.SPO2.IsValid = true ∧ out.SPO2.Value = 97 ∧
      out.PR.IsValid = true ∧ out.PR.Value = 72 ∧
      out.BP.IsValid = false) ∧
    (∀ patientID, idleProcessor.vitalsCache patientID = none →
      ∃ out, composePayload idleProcessor patientID twoSamples = some out ∧
        out.SPO2.IsValid = false ∧ out.PR.IsValid = false ∧ out.BP.IsValid = false) :=
  C11_vitals_in_payload idleProcessor readingP1 1700000060 twoSamples (by decide) (by decide)
    (by decide) ⟨sampleECG "P1" "F1" 2, by decide, by decide⟩

/-- C12: a start event whose device type is not "BIOSENSOR_NEXUS" leaves the session
registry unchanged; one with that device type whose persistence succeeds maps its
patient id to a running session with the event's patch id as device id, the event's
facility id, start time `now` and no end or last-streamed time, whatever entry was
there before, and leaves every other patient's entry unchanged. -/
theorem C12_start_installs_session (p : BeltProcessor) (msg : SvcStartPayload) (now : Int) :
    (msg.DeviceType ≠ "BIOSENSOR_NEXUS" →
      ∀ dbErr, (HandleSvcStartMessage p (some msg) dbErr now).activePatients =
        p.activePatients) ∧
    (msg.DeviceType = "BIOSENSOR_NEXUS" →
      (HandleSvcStartMessage p (some msg) false now).activePatients msg.PatientID =
        some { PatientID := msg.PatientID, DeviceID := msg.PatchID, Status := "running",
               FacilityID := msg.FacilityID, StartTime := now, EndTime := none,
               LastStreamedTime := none } ∧
      (∀ k, k ≠ msg.PatientID →
        (HandleSvcStartMessage p (some msg) false now).activePatients k =
          p.activePatients k) ∧
      (∀ later : Int,
        (HandleSvcStartMessage (HandleSvcStartMessage p (some msg) false now) (some msg) false
            later).activePatients msg.PatientID =
          ((HandleSvcStartMessage p (some msg) false now).activePatients msg.PatientID).map
            (fun s => { s with StartTime := later }))) := by
  constructor
  · intro hdt dbErr
    simp [HandleSvcStartMessage, hdt]
  · intro hdt
    refine ⟨?_, ?_, ?_⟩
    · simp [HandleSvcStartMessage, hdt]
    · intro k hk
      simp [HandleSvcStartMessage, hdt, GoMap.set, hk]
    · intro later
      simp [HandleSvcStartMessage, hdt]

/-- Instance of C12: the start of patient "P1" on device "D1", on the empty registry. -/
theorem C12_witness :
    (HandleSvcStartMessage idleProcessor (some (startOf "P1" "D1")) false
        1700000000).activePatients "P1" = some (runningSession "P1" "D1") ∧
    (HandleSvcStartMessage idleProcessor (some { startOf "P1" "D1" with DeviceType := "OTHER" })
        false 1700000000).activePatients "P1" = none :=
  ⟨((C12_start_installs_session idleProcessor (startOf "P1" "D1") 1700000000).2
      (by decide)).1,
   by decide⟩


/-! ## Session stop -/

/-- What the scan returns is the empty id or a key whose session is on the device. -/
theorem findPatientToStop_spec (activePatients : GoMap PatientStream) (d : String)
    (visit : List String) :
    findPatientToStop activePatients visit d = "" ∨
    ∃ stream, activePatients (findPatientToStop activePatients visit d) = some stream ∧
      stream.DeviceID = d := by
  induction visit with
  | nil => exact Or.inl rfl
  | cons id rest ih =>
    unfold findPatientToStop
    cases hid : activePatients id with
    | none => exact ih
    | some s =>
      simp only
      by_cases hsd : s.DeviceID = d
      · rw [if_pos hsd]
        exact Or.inr ⟨s, hid, hsd⟩
      · rw [if_neg hsd]
        exact ih

/-- C13 fails as stated.  After "P1" was started and stopped on device "D1" and "P2"
was started on "D1", the stopped session of "P1" is still stored; a stop for "D1" whose
scan meets "P1" first leaves the running session of "P2" running.  With a running
session of the empty patient id on "D1" the stop changes nothing. -/
theorem C13_counterexample :
    ((reusedDevice.activePatients "P1").map (fun s => (s.DeviceID, s.Status)) =
        some ("D1", "stopped") ∧
      (reusedDevice.activePatients "P2").map (fun s => (s.DeviceID, s.Status)) =
        some ("D1", "running") ∧
      ((HandleSvcActionMessage reusedDevice (some (stopOf "D1")) ["P1", "P2"] false
          1700000030).activePatients "P2").map (fun s => (s.Status, s.EndTime)) =
        some ("running", none)) ∧
    ((nameless.activePatients "").map (fun s => (s.DeviceID, s.Status)) =
        some ("D1", "running") ∧
      ((HandleSvcActionMessage nameless (some (stopOf "D1")) [""] false
          1700000003).activePatients "").map (fun s => (s.Status, s.EndTime)) =
        some ("running", none)) := by
  decide

/-- C13 (amended): when a patient with a non-empty id has a running session on device
`d` and no other stored session is on `d`, a stop action for `d` whose persistence
succeeds leaves that session stopped with end time `now` and otherwise as it was; in
every state a stop action for `d` leaves every session on another device unchanged;
and when no stored session is on `d` the registry and the pending batches are
unchanged. -/
theorem C13_stop_marks_session_stopped (p : BeltProcessor) (d : String)
    (visit : List String) (now : Int) :
    (∀ pid stream, pid ≠ "" → p.activePatients pid = some stream →
      stream.Status = "running" → stream.DeviceID = d → pid ∈ visit →
      (∀ k s, p.activePatients k = some s → s.DeviceID = d → k = pid) →
      (HandleSvcActionMessage p (some { PatchID := d, Action := "stop" }) visit false
          now).activePatients pid =
        some { stream with Status := "stopped", EndTime := some now }) ∧
    (∀ k s dbErr, p.activePatients k = some s → s.DeviceID ≠ d →
      (HandleSvcActionMessage p (some { PatchID := d, Action := "stop" }) visit dbErr
          now).activePatients k = some s) ∧
    ((∀ k s, p.activePatients k = some s → s.DeviceID ≠ d) →
      ∀ dbErr,
        (HandleSvcActionMessage p (some { PatchID := d, Action := "stop" }) visit dbErr
            now).activePatients = p.activePatients ∧
        (HandleSvcActionMessage p (some { PatchID := d, Action := "stop" }) visit dbErr
            now).patientBatches = p.patientBatches) := by
  refine ⟨?_, ?_, ?_⟩
  · intro pid stream hpid hs _ hdev hvisit honly
    have hfind := findPatientToStop_unique p.activePatients pid d stream hs hdev honly visit
      hvisit
    simp [HandleSvcActionMessage, hfind, hpid, hs]
  · intro k s dbErr hk hne
    rcases findPatientToStop_spec p.activePatients d visit with h0 | ⟨stream, hst, hdev⟩
    · simp [HandleSvcActionMessage, h0, hk]
    · by_cases hempty : findPatientToStop p.activePatients visit d = ""
      · simp [HandleSvcActionMessage, hempty, hk]
      · have hkne : k ≠ findPatientToStop p.activePatients visit d := by
          intro heq
          rw [← heq, hk] at hst
          cases hst
          exact hne hdev
        cases dbErr with
        | true => simp [HandleSvcActionMessage, hempty, hk]
        | false => simp [HandleSvcActionMessage, hempty, hst, GoMap.set, hkne, hk]
  · intro hnone dbErr
    have h0 : findPatientToStop p.activePatients visit d = "" := by
      rcases findPatientToStop_spec p.activePatients d visit with h0 | ⟨stream, hst, hdev⟩
      · exact h0
      · exact absurd hdev (hnone _ stream hst)
    simp [HandleSvcActionMessage, h0]

/-- Instance of C13 (amended): patient "P1" alone on device "D1". -/
theorem C13_witness :
    (HandleSvcActionMessage pendingP1 (some { PatchID := "D1", Action := "stop" }) ["P1"]
        false 1700000003).activePatients "P1" =
      some { runningSession "P1" "D1" with Status := "stopped", EndTime := some 1700000003 } :=
  (C13_stop_marks_session_stopped pendingP1 "D1" ["P1"] 1700000003).1 "P1"
    (runningSession "P1" "D1") (by decide) (by decide) (by decide) (by decide) (by decide)
    (by
      intro k s hk _
      by_contra hne
      simp [pendingP1, monitoringP1, idleProcessor, emptyProcessor, GoMap.set, hne] at hk)


/-! ## Chunks per patient -/

/-- The ECG handler leaves the session registry as it is. -/
theorem HandleECGMessage_activePatients (p : BeltProcessor) (decoded : Option ECGMessage)
    (api : ApiAnswer) (now : Int) :
    (HandleECGMessage p decoded api now).proc.activePatients = p.activePatients := by
  cases decoded with
  | none => rfl
  | some msg =>
    cases hs : p.activePatients msg.PatientID with
    | none => simp [HandleECGMessage, hs]
    | some stream =>
      have hfr := fun b => processAndSendBatch_frame p msg.PatientID b api now
      simp only [HandleECGMessage, hs]
      split_ifs
      · rfl
      · exact (hfr _).1
      · exact (hfr _).1
      · rfl

/-- The ECG handler flushes only for the patient of the sample and changes only that
patient's pending batch. -/
theorem HandleECGMessage_other (p : BeltProcessor) (msg : ECGMessage) (api : ApiAnswer)
    (now : Int) (pid : String) (hne : msg.PatientID ≠ pid) :
    flushedFor pid (HandleECGMessage p (some msg) api now).flushed = [] ∧
    pendingOf (HandleECGMessage p (some msg) api now).proc pid = pendingOf p pid := by
  have hne' : pid ≠ msg.PatientID := fun h => hne h.symm
  cases hs : p.activePatients msg.PatientID with
  | none =>
    have : HandleECGMessage p (some msg) api now = { proc := p } := by
      simp [HandleECGMessage, hs]
    rw [this]
    exact ⟨rfl, rfl⟩
  | some stream =>
    by_cases hst : stream.Status = "stopped"
    · have : HandleECGMessage p (some msg) api now = { proc := p } := by
        simp [HandleECGMessage, hs, hst]
      rw [this]
      exact ⟨rfl, rfl⟩
    · cases hd : msg.Discharge with
      | true =>
        have hfr := processAndSendBatch_frame p msg.PatientID { Messages := [msg] } api now
        constructor
        · simp [HandleECGMessage, hs, hst, hd, flushedFor, hne]
        · apply pendingOf_congr
          simp [HandleECGMessage, hs, hst, hd, hfr]
      | false =>
        by_cases hlen : (pendingOf p msg.PatientID).length + 1 < chunkSize
        · rw [HandleECGMessage_append p msg api now stream hs hst hd hlen]
          exact ⟨rfl, pendingOf_congr p _ pid (GoMap.set_other _ _ _ _ hne')⟩
        · have hfl := HandleECGMessage_flush p msg api now stream hs hst hd (by omega)
          constructor
          · rw [hfl.1]
            simp [flushedFor, hne]
          · apply pendingOf_congr
            rw [hfl.2.1]
            exact GoMap.delete_other _ _ _ hne'

theorem flushedFor_append (pid : String) (xs ys : List Flush) :
    flushedFor pid (xs ++ ys) = flushedFor pid xs ++ flushedFor pid ys := by
  simp [flushedFor]

/-- Non-discharge samples of accepted patients, interleaved in any way: the batches
flushed for one patient, followed by what stays pending for it, are what was pending
for it followed by its samples, cut into chunks of thirty. -/
theorem run_ecg_chunks (pid : String) (arrivals : List ECGArrival) :
    ∀ p : BeltProcessor, (pendingOf p pid).length < chunkSize →
      (∀ a ∈ arrivals, a.msg.Discharge = false ∧
        ∃ s, p.activePatients a.msg.PatientID = some s ∧ s.Status ≠ "stopped") →
      (flushedFor pid (run p (arrivals.map ECGArrival.event)).flushed).length =
        ((pendingOf p pid).length + (samplesOf pid arrivals).length) / 30 ∧
      (∀ b ∈ flushedFor pid (run p (arrivals.map ECGArrival.event)).flushed,
        b.length = 30) ∧
      (flushedFor pid (run p (arrivals.map ECGArrival.event)).flushed).flatten ++
          pendingOf (run p (arrivals.map ECGArrival.event)).proc pid =
        pendingOf p pid ++ samplesOf pid arrivals := by
  induction arrivals with
  | nil =>
    intro p hlt _
    simp only [chunkSize] at hlt
    simp only [List.map_nil, run_nil, flushedFor, samplesOf, List.filter_nil, List.map_nil,
      List.length_nil, List.flatten_nil, List.nil_append, List.append_nil, Nat.add_zero]
    refine ⟨by omega, ?_, trivial⟩
    intro b hb
    cases hb
  | cons a rest ih =>
    intro p hlt hall
    obtain ⟨hd, s, hs, hst⟩ := hall a (List.mem_cons_self _ _)
    have hact : (step p a.event).proc.activePatients = p.activePatients :=
      HandleECGMessage_activePatients p (some a.msg) a.api a.now
    have hall' : ∀ x ∈ rest, x.msg.Discharge = false ∧
        ∃ s, (step p a.event).proc.activePatients x.msg.PatientID = some s ∧
          s.Status ≠ "stopped" := by
      intro x hx
      rw [hact]
      exact hall x (List.mem_cons_of_mem _ hx)
    simp only [List.map_cons, run_cons_flushed, run_cons_proc, flushedFor_append]
    by_cases hkey : a.msg.PatientID = pid
    · have hmine : samplesOf pid (a :: rest) = a.msg :: samplesOf pid rest := by
        simp [samplesOf, hkey]
      rw [hmine]
      by_cases hlen : (pendingOf p a.msg.PatientID).length + 1 < chunkSize
      · have hstep : step p a.event =
            { proc := { p with patientBatches :=
                (p.patientBatches.set a.msg.PatientID
                  { Messages := pendingOf p a.msg.PatientID ++ [a.msg] }) } } :=
          HandleECGMessage_append p a.msg a.api a.now s hs hst hd hlen
        have hpend : pendingOf (step p a.event).proc pid = pendingOf p pid ++ [a.msg] := by
          rw [hstep, ← hkey]
          exact pendingOf_set_same p _ _
        have hfl : flushedFor pid (step p a.event).flushed = [] := by
          rw [hstep]; rfl
        obtain ⟨h1, h2, h3⟩ := ih (step p a.event).proc
          (by rw [hpend, List.length_append, List.length_singleton, ← hkey]; exact hlen)
          hall'
        rw [hfl, hpend] at *
        simp only [List.nil_append, List.length_append, List.length_singleton,
          List.length_cons, List.length_nil] at *
        refine ⟨by rw [h1]; congr 1; omega, h2, ?_⟩
        rw [h3]
        simp
      · have hfull := HandleECGMessage_flush p a.msg a.api a.now s hs hst hd (by omega)
        have hpend : pendingOf (step p a.event).proc pid = [] := by
          apply pendingOf_of_none
          show (HandleECGMessage p (some a.msg) a.api a.now).proc.patientBatches pid = none
          rw [hfull.2.1, hkey]
          simp
        have hfl : flushedFor pid (step p a.event).flushed =
            [pendingOf p pid ++ [a.msg]] := by
          show flushedFor pid (HandleECGMessage p (some a.msg) a.api a.now).flushed = _
          rw [hfull.1]
          simp [flushedFor, hkey]
        have hcount : (pendingOf p pid).length + 1 = 30 := by
          rw [hkey] at hlen
          simp only [chunkSize] at hlen hlt
          omega
        obtain ⟨h1, h2, h3⟩ := ih (step p a.event).proc
          (by rw [hpend]; simp [chunkSize]) hall'
        rw [hpend] at h1 h3
        rw [hfl]
        simp only [List.length_nil, Nat.zero_add, List.nil_append] at h1 h3
        refine ⟨?_, ?_, ?_⟩
        · simp only [List.length_append, List.length_singleton, List.length_cons,
            List.length_nil, h1]
          omega
        · intro b hb
          rcases List.mem_append.mp hb with hb | hb
          · rw [List.mem_singleton] at hb
            rw [hb, List.length_append, List.length_singleton]
            exact hcount
          · exact h2 b hb
        · simp only [List.singleton_append, List.flatten_cons, List.append_assoc]
          simp only [List.cons_append, List.nil_append, h3]
    · have hmine : samplesOf pid (a :: rest) = samplesOf pid rest := by
        simp [samplesOf, hkey]
      obtain ⟨hfl, hpend⟩ := HandleECGMessage_other p a.msg a.api a.now pid hkey
      have hfl' : flushedFor pid (step p a.event).flushed = [] := hfl
      have hpend' : pendingOf (step p a.event).proc pid = pendingOf p pid := hpend
      obtain ⟨h1, h2, h3⟩ := ih (step p a.event).proc (by rw [hpend']; exact hlt) hall'
      rw [hmine, hfl', List.nil_append]
      rw [hpend'] at h1 h3
      exact ⟨h1, h2, h3⟩


/-- C15: starting without pending batches, after any sequence of non-discharge samples
of patients with running sessions, interleaved in any way, a patient with `k` samples
in the sequence has had `k / 30` batches flushed, each of thirty samples, and its
flushed batches in flush order followed by its pending batch are its samples in
arrival order. -/
theorem C15_per_patient_chunks (p : BeltProcessor) (arrivals : List ECGArrival)
    (pid : String) (hempty : ∀ k, p.patientBatches k = none)
    (hall : ∀ a ∈ arrivals, a.msg.Discharge = false ∧
      ∃ s, p.activePatients a.msg.PatientID = some s ∧ s.Status = "running") :
    (flushedFor pid (run p (arrivals.map ECGArrival.event)).flushed).length =
      (samplesOf pid arrivals).length / 30 ∧
    (∀ b ∈ flushedFor pid (run p (arrivals.map ECGArrival.event)).flushed,
      b.length = 30) ∧
    (flushedFor pid (run p (arrivals.map ECGArrival.event)).flushed).flatten ++
        pendingOf (run p (arrivals.map ECGArrival.event)).proc pid =
      samplesOf pid arrivals := by
  have hpend : pendingOf p pid = [] := pendingOf_of_none p pid (hempty pid)
  have h := run_ecg_chunks pid arrivals p (by rw [hpend]; simp [chunkSize])
    (by
      intro a ha
      obtain ⟨hd, s, hs, hrun⟩ := hall a ha
      exact ⟨hd, s, hs, by rw [hrun]; decide⟩)
  rw [hpend] at h
  simpa using h

/-- Instance of C15: thirty samples of "P1" with twenty-nine samples of "P2" in
between; one batch is flushed for "P1", none for "P2". -/
theorem C15_witness :
    ((flushedFor "P1" (run monitoringBoth (interleavedArrivals.map ECGArrival.event)).flushed).length =
        (samplesOf "P1" interleavedArrivals).length / 30 ∧
      (∀ b ∈ flushedFor "P1"
          (run monitoringBoth (interleavedArrivals.map ECGArrival.event)).flushed,
        b.length = 30) ∧
      (flushedFor "P1"
          (run monitoringBoth (interleavedArrivals.map ECGArrival.event)).flushed).flatten ++
          pendingOf (run monitoringBoth (interleavedArrivals.map ECGArrival.event)).proc "P1" =
        samplesOf "P1" interleavedArrivals) ∧
    (samplesOf "P1" interleavedArrivals).length = 30 ∧
    (samplesOf "P2" interleavedArrivals).length = 29 :=
  have hids : ∀ a ∈ interleavedArrivals, a.msg.Discharge = false ∧
      (a.msg.PatientID = "P1" ∨ a.msg.PatientID = "P2") := by decide
  ⟨C15_per_patient_chunks monitoringBoth interleavedArrivals "P1" (fun _ => rfl)
    (by
      intro a ha
      obtain ⟨hd, h1 | h2⟩ := hids a ha
      · exact ⟨hd, runningSession "P1" "D1", by rw [h1]; decide, rfl⟩
      · exact ⟨hd, runningSession "P2" "D2", by rw [h2]; decide, rfl⟩),
   by decide, by decide⟩


/-! ## Delivery -/

/-- Scoped locks are released before every outside call. -/
theorem callsUnlocked_of_scoped (ops : List Op) (h : locksScoped ops) : callsUnlocked ops := by
  intro o held hmem
  have hs := h _ hmem
  cases held with
  | nil => rfl
  | cons m rest => cases rest <;> simp [scopedAt] at hs

theorem sendToApiOps_cases (api : ApiAnswer) :
    sendToApiOps api = [Op.call Outside.logWrite] ∨
    sendToApiOps api = [Op.call Outside.httpDo, Op.call Outside.logWrite] ∨
    sendToApiOps api =
      [Op.call Outside.httpDo, Op.call Outside.logWrite, Op.Lock Mutex.lastStreamedTimesMu,
       Op.table Mutex.lastStreamedTimesMu, Op.Unlock Mutex.lastStreamedTimesMu] := by
  unfold sendToApiOps
  by_cases h : api = ApiAnswer.requestError
  · left; rw [if_pos h]
  · rw [if_neg h]
    cases (clientDo 1 none api).2 with
    | none => right; left; rfl
    | some code =>
      by_cases hc : code ≥ 300
      · right; left; simp [hc]
      · right; right; simp [hc]

theorem sendToApiOps_scoped (api : ApiAnswer) : locksScoped (sendToApiOps api) := by
  unfold locksScoped
  rcases sendToApiOps_cases api with h | h | h <;> rw [h] <;> decide

theorem processAndSendBatchOps_scoped (p : BeltProcessor) (patientID : String)
    (batch : PatientBatch) (file : FileAnswer) (api : ApiAnswer) :
    locksScoped (processAndSendBatchOps p patientID batch file api) := by
  unfold locksScoped processAndSendBatchOps
  cases hc : composePayload p patientID batch with
  | none => simp only []; decide
  | some out =>
    simp only []
    cases hw : p.writeToFile <;>
      by_cases he : p.endpointURL ≠ "" ∧ p.apiKey ≠ ""
    · simp only [Bool.false_eq_true, if_false, if_pos he]
      rcases sendToApiOps_cases api with h | h | h <;> rw [h] <;> decide
    · simp only [Bool.false_eq_true, if_false, if_neg he]
      decide
    · simp only [if_true, if_pos he]
      rcases sendToApiOps_cases api with h | h | h <;> rw [h] <;> cases file <;> decide
    · simp only [if_true, if_neg he]
      cases file <;> decide

theorem underLocks_lookup (m : Mutex) (ops : List Op) :
    underLocks [] (Op.RLock m :: Op.table m :: Op.RUnlock m :: ops) =
      (Op.RLock m, []) :: (Op.table m, [m]) :: underLocks [] ops := by
  simp [underLocks]

theorem HandleECGMessageOps_scoped (p : BeltProcessor) (decoded : Option ECGMessage)
    (file : FileAnswer) (api : ApiAnswer) :
    locksScoped (HandleECGMessageOps p decoded file api).1 ∧
    ∀ t ∈ (HandleECGMessageOps p decoded file api).2, locksScoped t := by
  cases decoded with
  | none =>
    refine ⟨?_, ?_⟩
    · unfold locksScoped; simp only [HandleECGMessageOps]; decide
    · intro t ht; simp [HandleECGMessageOps] at ht
  | some msg =>
    cases hs : p.activePatients msg.PatientID with
    | none =>
      refine ⟨?_, ?_⟩
      · unfold locksScoped; simp only [HandleECGMessageOps, hs]; decide
      · intro t ht; simp [HandleECGMessageOps, hs] at ht
    | some stream =>
      by_cases hst : stream.Status = "stopped"
      · refine ⟨?_, ?_⟩
        · unfold locksScoped; simp only [HandleECGMessageOps, hs, if_pos hst]; decide
        · intro t ht; simp [HandleECGMessageOps, hs, hst] at ht
      · cases hd : msg.Discharge with
        | true =>
          refine ⟨?_, ?_⟩
          · unfold locksScoped
            simp only [HandleECGMessageOps, hs, if_neg hst, hd, if_true, List.cons_append,
              List.nil_append]
            rw [underLocks_lookup]
            intro x hx
            rcases List.mem_cons.mp hx with h | hx
            · rw [h]; rfl
            · rcases List.mem_cons.mp hx with h | hx
              · rw [h]; rfl
              · exact processAndSendBatchOps_scoped _ _ _ _ _ x hx
          · intro t ht; simp [HandleECGMessageOps, hs, hst, hd] at ht
        | false =>
          refine ⟨?_, ?_⟩
          · unfold locksScoped
            simp only [HandleECGMessageOps, hs, if_neg hst, hd, Bool.false_eq_true, if_false]
            cases p.patientBatches msg.PatientID <;> simp only [] <;> split_ifs <;> dsimp only <;>
              decide
          · intro t ht
            simp only [HandleECGMessageOps, hs, if_neg hst, hd, Bool.false_eq_true,
              if_false] at ht
            split_ifs at ht
            · simp only [List.mem_singleton] at ht
              rw [ht]
              exact processAndSendBatchOps_scoped _ _ _ _ _
            · simp at ht

/-- C16 fails as stated.  The start handler holds the session-registry lock while
`StartMonitoring` and its log line are written, the stop handler holds it while
`StopMonitoring` runs, while it locks and changes the pending-batch table and while
its log line is written, and the vitals update holds the vitals-cache lock while its
log line is written to the log file. -/
theorem C16_counterexample :
    underLocks [] (HandleSvcStartMessageOps (some (startOf "P1" "D1")) false) =
      [(Op.Lock Mutex.activePatientsMu, []),
       (Op.call Outside.StartMonitoring, [Mutex.activePatientsMu]),
       (Op.table Mutex.activePatientsMu, [Mutex.activePatientsMu]),
       (Op.call Outside.logWrite, [Mutex.activePatientsMu])] ∧
    underLocks [] (HandleSvcActionMessageOps pendingP1 (some (stopOf "D1")) ["P1"] false) =
      [(Op.Lock Mutex.activePatientsMu, []),
       (Op.table Mutex.activePatientsMu, [Mutex.activePatientsMu]),
       (Op.call Outside.StopMonitoring, [Mutex.activePatientsMu]),
       (Op.table Mutex.activePatientsMu, [Mutex.activePatientsMu]),
       (Op.table Mutex.activePatientsMu, [Mutex.activePatientsMu]),
       (Op.Lock Mutex.patientBatchesMu, [Mutex.activePatientsMu]),
       (Op.table Mutex.patientBatchesMu, [Mutex.patientBatchesMu, Mutex.activePatientsMu]),
       (Op.call Outside.logWrite, [Mutex.activePatientsMu])] ∧
    underLocks [] (HandleBPSPO2MessageOps monitoringP1 (some readingP1)) =
      [(Op.RLock Mutex.activePatientsMu, []),
       (Op.table Mutex.activePatientsMu, [Mutex.activePatientsMu]),
       (Op.Lock Mutex.vitalsCacheMu, []),
       (Op.table Mutex.vitalsCacheMu, [Mutex.vitalsCacheMu]),
       (Op.table Mutex.vitalsCacheMu, [Mutex.vitalsCacheMu]),
       (Op.call Outside.logWrite, [Mutex.vitalsCacheMu])] := by
  decide

/-- C16 (amended): in the ECG handler and the goroutine it starts, in composition, in
delivery and in the housekeeping tick (and in the restore at startup) no table lock
is held while a persistence call, an HTTP call or a file write is in progress, and
each lock is held only around accesses to its own table.  In the vitals update that
holds except for the log line written under the vitals-cache lock.  The session start
handler holds the session-registry lock, and no other, around `StartMonitoring`, the
registry write and the log line; the session stop handler holds it around the scan,
`StopMonitoring`, the registry update and the log line, and takes the pending-batch
lock inside it for the removal of the batch. -/
theorem C16_lock_scopes :
    (∀ p decoded file api,
      locksScoped (HandleECGMessageOps p decoded file api).1 ∧
      callsUnlocked (HandleECGMessageOps p decoded file api).1 ∧
      ∀ t ∈ (HandleECGMessageOps p decoded file api).2, locksScoped t ∧ callsUnlocked t) ∧
    (∀ p patientID batch file api,
      locksScoped (processAndSendBatchOps p patientID batch file api) ∧
      callsUnlocked (processAndSendBatchOps p patientID batch file api)) ∧
    (∀ api, locksScoped (sendToApiOps api) ∧ callsUnlocked (sendToApiOps api)) ∧
    (∀ anyStopped anyUpdates,
      locksScoped (housekeepingTickOps anyStopped anyUpdates) ∧
      callsUnlocked (housekeepingTickOps anyStopped anyUpdates)) ∧
    (∀ dbErr rows,
      locksScoped (loadActivePatientsOps dbErr rows) ∧
      callsUnlocked (loadActivePatientsOps dbErr rows)) ∧
    (∀ p decoded, ∀ x ∈ underLocks [] (HandleBPSPO2MessageOps p decoded),
      scopedAt x = true ∨ x = (Op.call Outside.logWrite, [Mutex.vitalsCacheMu])) ∧
    (∀ decoded dbErr, ∀ x ∈ underLocks [] (HandleSvcStartMessageOps decoded dbErr),
      scopedAt x = true ∨
      x = (Op.call Outside.StartMonitoring, [Mutex.activePatientsMu]) ∨
      x = (Op.call Outside.logWrite, [Mutex.activePatientsMu])) ∧
    (∀ p decoded visit dbErr,
      ∀ x ∈ underLocks [] (HandleSvcActionMessageOps p decoded visit dbErr),
        scopedAt x = true ∨
        x = (Op.call Outside.StopMonitoring, [Mutex.activePatientsMu]) ∨
        x = (Op.call Outside.logWrite, [Mutex.activePatientsMu]) ∨
        x = (Op.Lock Mutex.patientBatchesMu, [Mutex.activePatientsMu]) ∨
        x = (Op.table Mutex.patientBatchesMu,
              [Mutex.patientBatchesMu, Mutex.activePatientsMu])) := by
  refine ⟨?_, ?_, ?_, ?_, ?_, ?_, ?_, ?_⟩
  · intro p decoded file api
    obtain ⟨h1, h2⟩ := HandleECGMessageOps_scoped p decoded file api
    exact ⟨h1, callsUnlocked_of_scoped _ h1,
      fun t ht => ⟨h2 t ht, callsUnlocked_of_scoped _ (h2 t ht)⟩⟩
  · intro p patientID batch file api
    have h := processAndSendBatchOps_scoped p patientID batch file api
    exact ⟨h, callsUnlocked_of_scoped _ h⟩
  · intro api
    exact ⟨sendToApiOps_scoped api, callsUnlocked_of_scoped _ (sendToApiOps_scoped api)⟩
  · intro anyStopped anyUpdates
    have h : locksScoped (housekeepingTickOps anyStopped anyUpdates) := by
      unfold locksScoped
      cases anyStopped <;> cases anyUpdates <;> decide
    exact ⟨h, callsUnlocked_of_scoped _ h⟩
  · intro dbErr rows
    have h : locksScoped (loadActivePatientsOps dbErr rows) := by
      unfold locksScoped
      cases dbErr with
      | true => simp only [loadActivePatientsOps, if_true]; decide
      | false =>
        have hrows : ∀ n, underLocks [Mutex.activePatientsMu]
            (List.replicate n (Op.table Mutex.activePatientsMu) ++
              [Op.Unlock Mutex.activePatientsMu]) =
            List.replicate n (Op.table Mutex.activePatientsMu, [Mutex.activePatientsMu]) := by
          intro n
          induction n with
          | zero => simp [underLocks]
          | succ k ih => simp [List.replicate_succ, underLocks, ih]
        have hops : loadActivePatientsOps false rows =
            Op.call Outside.GetActivePatients :: Op.Lock Mutex.activePatientsMu ::
              (List.replicate rows (Op.table Mutex.activePatientsMu) ++
                [Op.Unlock Mutex.activePatientsMu]) := by
          simp [loadActivePatientsOps]
        intro x hx
        rw [hops] at hx
        simp only [underLocks, hrows] at hx
        rcases List.mem_cons.mp hx with h | hx
        · rw [h]; rfl
        · rcases List.mem_cons.mp hx with h | hx
          · rw [h]; rfl
          · rw [(List.mem_replicate.mp hx).2]; rfl
    exact ⟨h, callsUnlocked_of_scoped _ h⟩
  · intro p decoded
    cases decoded with
    | none => simp only [HandleBPSPO2MessageOps]; decide
    | some msg =>
      by_cases hp : msg.PatientID = ""
      · simp only [HandleBPSPO2MessageOps, if_pos hp]; decide
      · simp only [HandleBPSPO2MessageOps, if_neg hp]
        cases p.activePatients msg.PatientID <;> simp only [] <;> decide
  · intro decoded dbErr
    cases decoded with
    | none => simp only [HandleSvcStartMessageOps]; decide
    | some msg =>
      by_cases hdt : msg.DeviceType = "BIOSENSOR_NEXUS"
      · simp only [HandleSvcStartMessageOps, hdt, ne_eq, not_true_eq_false, if_false]
        cases dbErr <;> decide
      · simp only [HandleSvcStartMessageOps, ne_eq, hdt, not_false_eq_true, if_true]
        decide
  · intro p decoded visit dbErr
    cases decoded with
    | none => simp only [HandleSvcActionMessageOps]; decide
    | some msg =>
      by_cases ha : msg.Action = "stop"
      · simp only [HandleSvcActionMessageOps, if_pos ha]
        by_cases hf : findPatientToStop p.activePatients visit msg.PatchID = ""
        · simp only [if_pos hf]; decide
        · simp only [if_neg hf]
          cases dbErr with
          | true => simp only [if_true]; decide
          | false =>
            simp only [Bool.false_eq_true, if_false]
            cases p.activePatients (findPatientToStop p.activePatients visit msg.PatchID) <;>
              simp only [] <;> decide
      · simp only [HandleSvcActionMessageOps, if_neg ha]; decide


end BeltPresense
